import Mathlib

/-!
# Verification of the FRR CI build-report parser and analyzer

A shallow embedding, in Lean 4, of the core of the `track_mainstream_frr`
repository: the build-report parser/classifier `parse_build_status` and the
sanitizer diagnostic sub-parser `parse_asan_details` (`check_ci_build.py`),
and the time-windowed walker `get_builds_from_week`, the job-name
normalizer/matcher `normalize_job_name` / `jobs_match`, the aggregator
`analyze_builds` and the failure-signature construction from
`print_detailed_failures` (`analyze_ci.py`).

Embedding conventions:
* Python strings are Lean `String`s; all computation is done on their
  underlying `List Char` (`Chars` below), because character-level scanning
  is what the Python regexes do and because `List Char` computations reduce
  in the kernel.
* The regular-expression searches of the source are hand-rolled scanners
  with the same semantics (leftmost match, greedy repetition with the
  backtracking the concrete patterns allow, `re.IGNORECASE` as lowering,
  word boundaries as non-word-character context).
* BeautifulSoup queries are modelled by a `Doc` structure whose fields hold
  exactly what the source extracts from the soup (first `<h1>` text, the
  page's text nodes, tables as header text plus rows of cells, `li` job
  items, presence of the `failing-since` / hung-build markers, the
  `dt.completed → dd → time` text).  `parse_build_status` then performs on
  these fields the same checks the source performs on the soup.
* Network calls (`requests`, `fetch_job_log`, `download_page_safe`) are
  external collaborators per the specification; they are modelled as
  explicit oracle arguments (`String → Option String` for job-log fetches,
  `Nat → Option Doc` for build-page fetches).  The walker additionally
  returns the trace of build ids it fetched, making the effect observable.
* Python `defaultdict`/`dict` values are association lists preserving
  insertion order; Python `set`s are duplicate-free lists.
-/

/-! ## Character-list string utilities -/

abbrev Chars := List Char

/-- Python `needle in haystack` (substring containment). -/
def subList (needle hay : Chars) : Bool :=
  hay.tails.any (fun t => needle.isPrefixOf t)

/-- Lower-case a character list (`str.lower()` for the ASCII range used here). -/
def lowerS (l : Chars) : Chars := l.map Char.toLower

/-- Case-insensitive substring containment. -/
def subListCI (needle hay : Chars) : Bool := subList (lowerS needle) (lowerS hay)

/-- Python `str.strip()`. -/
def trimC (l : Chars) : Chars :=
  ((l.dropWhile Char.isWhitespace).reverse.dropWhile Char.isWhitespace).reverse

/-- A `\w` character of the regexes (ASCII word character). -/
def isWordChar (c : Char) : Bool := c.isAlphanum || c = '_'

/-- Does `needle` occur at the head of `l` with `\b` boundaries on both
sides, `prev` being the character just before `l` (`none` at string start)? -/
def wordAt (needle : Chars) (prev : Option Char) (l : Chars) : Bool :=
  needle.isPrefixOf l
    && (match prev with | none => true | some c => !isWordChar c)
    && (match l.drop needle.length with | [] => true | c :: _ => !isWordChar c)

/-- `re.search(r"\bneedle\b", l)` for a needle made of word characters. -/
def hasWordFrom (needle : Chars) : Option Char → Chars → Bool
  | prev, [] => wordAt needle prev []
  | prev, c :: rest => wordAt needle prev (c :: rest) || hasWordFrom needle (some c) rest

def hasWord (needle hay : Chars) : Bool := hasWordFrom needle none hay

/-- Value of a run of decimal digits. -/
def digitsToNat (l : Chars) : Nat :=
  l.foldl (fun n c => n * 10 + (c.toNat - 48)) 0

/-- Run the position-wise matcher `tryAt` at every suffix, left to right,
returning the first (leftmost) success: the semantics of `re.search`. -/
def scanFirst {β : Type} (tryAt : Chars → Option β) : Chars → Option β
  | [] => tryAt []
  | c :: rest =>
    match tryAt (c :: rest) with
    | some b => some b
    | none => scanFirst tryAt rest

/-- Suffix just after the first occurrence of `lit`, if any. -/
def findAfterLit (lit : Chars) : Chars → Option Chars
  | [] => if lit.isEmpty then some [] else none
  | c :: rest =>
    if lit.isPrefixOf (c :: rest) then some ((c :: rest).drop lit.length)
    else findAfterLit lit rest

/-- Python `str.find`: character index of the first occurrence, `-1` if absent. -/
def strFind (hay needle : Chars) : Int :=
  go 0 hay
where
  go (i : Nat) : Chars → Int
    | [] => if needle.isEmpty then (i : Int) else -1
    | c :: rest => if needle.isPrefixOf (c :: rest) then (i : Int) else go (i + 1) rest

/-- Python `str.split()` (split on whitespace runs, dropping empties). -/
def splitWs (l : Chars) : List Chars :=
  (l.splitOnP Char.isWhitespace).filter (fun w => !w.isEmpty)

/-- Python `" ".join(s.split())`: collapse whitespace runs to single blanks. -/
def collapseWs (l : Chars) : Chars :=
  joinSep (splitWs l)
where
  joinSep : List Chars → Chars
    | [] => []
    | [w] => w
    | w :: ws => w ++ ' ' :: joinSep ws

/-- Python `str.replace(old, "")` for a nonempty `old`: remove every
occurrence, scanning left to right.  Fuel-driven (one character of fuel per
character consumed) so that it reduces structurally. -/
def removeAllGo (old : Chars) : Nat → Chars → Chars
  | 0, l => l
  | _, [] => []
  | fuel + 1, c :: rest =>
    if !old.isEmpty && old.isPrefixOf (c :: rest) then
      removeAllGo old fuel (rest.drop (old.length - 1))
    else c :: removeAllGo old fuel rest

def removeAll (old l : Chars) : Chars := removeAllGo old l.length l

/-- `re.search(lit + r"\s+(\d+)", text)`: capture the count after a literal. -/
def litWsNum (lit : Chars) (hay : Chars) : Option Nat :=
  scanFirst tryAt hay
where
  tryAt (l : Chars) : Option Nat :=
    if lit.isPrefixOf l then
      let r := l.drop lit.length
      let ws := r.takeWhile Char.isWhitespace
      if ws.isEmpty then none
      else
        let d := (r.drop ws.length).takeWhile Char.isDigit
        if d.isEmpty then none else some (digitsToNat d)
    else none

/-- `re.search(lit + r"[:\s]+(\d+)", text)`. -/
def litColonWsNum (lit : Chars) (hay : Chars) : Option Nat :=
  scanFirst tryAt hay
where
  tryAt (l : Chars) : Option Nat :=
    if lit.isPrefixOf l then
      let r := l.drop lit.length
      let sep := r.takeWhile (fun c => c = ':' || c.isWhitespace)
      if sep.isEmpty then none
      else
        let d := (r.drop sep.length).takeWhile Char.isDigit
        if d.isEmpty then none else some (digitsToNat d)
    else none

/-! ## Date parsing (`re.match(r"(\d{1,2}\s+\w+\s+\d{4})", s)` + `strptime "%d %b %Y"`),
modelled as in `analyze_ci.py` lines 59-68 and 98-113. -/

/-- `%b` month abbreviations of the C locale, matched case-insensitively. -/
def monthAbbrevs : List Chars :=
  ["jan", "feb", "mar", "apr", "may", "jun", "jul", "aug", "sep", "oct",
   "nov", "dec"].map String.data

def monthOfToken (tok : Chars) : Option Nat :=
  go 1 monthAbbrevs
where
  go (i : Nat) : List Chars → Option Nat
    | [] => none
    | m :: ms => if lowerS tok = m then some i else go (i + 1) ms

def isLeapYear (y : Nat) : Bool :=
  y % 4 = 0 && (y % 100 ≠ 0 || y % 400 = 0)

def daysInMonth (m y : Nat) : Nat :=
  if m = 2 then (if isLeapYear y then 29 else 28)
  else if m = 4 || m = 6 || m = 9 || m = 11 then 30
  else 31

/-- Days in the months strictly before month `m` (1-12) of year `y`:
the cumulative table used by `datetime`'s `_ymd2ord`. -/
def daysBeforeMonth (m y : Nat) : Nat :=
  [0, 31, 59, 90, 120, 151, 181, 212, 243, 273, 304, 334].getD (m - 1) 0
    + (if 2 < m && isLeapYear y then 1 else 0)

/-- `datetime.toordinal()` of the proleptic Gregorian date (y, m, d):
day 1 is 0001-01-01.  Only the ordering and day distances matter (the
walker compares `datetime`s and subtracts a `timedelta` of whole days). -/
def dateOrdinal (y m d : Nat) : Nat :=
  365 * (y - 1) + (y - 1) / 4 - (y - 1) / 100 + (y - 1) / 400
    + daysBeforeMonth m y + d

/-- The anchored date regex of `get_builds_from_week` followed by
`datetime.strptime(date_part, "%d %b %Y")`; `none` when the regex does not
match at the start of the string or `strptime` raises `ValueError`
(unknown month token, day 0 or > days-in-month, year 0000 below
`datetime.MINYEAR`). -/
def dateTriple (s : Chars) : Option (Nat × Nat × Nat) :=
  let ds := s.takeWhile Char.isDigit
  if ds.isEmpty || decide (2 < ds.length) then none
  else
    let r1 := s.drop ds.length
    let ws1 := r1.takeWhile Char.isWhitespace
    if ws1.isEmpty then none
    else
      let r2 := r1.drop ws1.length
      let ms := r2.takeWhile isWordChar
      if ms.isEmpty then none
      else
        let r3 := r2.drop ms.length
        let ws2 := r3.takeWhile Char.isWhitespace
        if ws2.isEmpty then none
        else
          let ys := (r3.drop ws2.length).takeWhile Char.isDigit
          if decide (ys.length < 4) then none
          else
            let d := digitsToNat ds
            let y := digitsToNat (ys.take 4)
            match monthOfToken ms with
            | none => none
            | some m =>
              if 1 ≤ d && 1 ≤ y && d ≤ daysInMonth m y then some (d, m, y)
              else none

/-- Ordinal of a build's completion date, combining the truthiness check
`if results["completed_time"]:`, the date regex and `strptime`; `none`
excludes the build from cutoff logic exactly as in the source. -/
def completionOrdinal (completed : Option String) : Option Nat :=
  match completed with
  | none => none
  | some s =>
    if s.data.isEmpty then none
    else
      match dateTriple s.data with
      | none => none
      | some (d, m, y) => some (dateOrdinal y m d)

/-! ## Remaining scanners for `parse_build_status` -/

/-- `re.search(r"FRR-FRR-(\d+)", url)`: the captured digits. -/
def urlBuildNum (url : Chars) : Option Chars :=
  scanFirst tryAt url
where
  tryAt (l : Chars) : Option Chars :=
    if ("FRR-FRR-".data).isPrefixOf l then
      let d := (l.drop 8).takeWhile Char.isDigit
      if d.isEmpty then none else some d
    else none

/-- `re.search(r"#[\d,]+", heading_text)`: the matched token. -/
def hashNumToken (s : Chars) : Option Chars :=
  scanFirst tryAt s
where
  tryAt (l : Chars) : Option Chars :=
    match l with
    | '#' :: rest =>
      let run := rest.takeWhile (fun c => c.isDigit || c = ',')
      if run.isEmpty then none else some ('#' :: run)
    | _ => none

/-- Suffix after the first `#` immediately followed by a digit. -/
def afterHashDigit : Chars → Option Chars
  | [] => none
  | '#' :: rest =>
    match rest with
    | d :: rest' => if d.isDigit then some rest' else afterHashDigit rest
    | [] => none
  | _ :: rest => afterHashDigit rest

/-- One line of `re.search(r"Build.*#\d+.*(failed|successful)", s, re.I)`:
`.` does not cross newlines, so the whole pattern must fit on one line.
The argument is already lowercased. -/
def lineHasBuildPat (line : Chars) : Bool :=
  match findAfterLit "build".data line with
  | none => false
  | some t1 =>
    match afterHashDigit t1 with
    | none => false
    | some t2 => subList "failed".data t2 || subList "successful".data t2

def buildSummaryPat (s : Chars) : Bool :=
  ((lowerS s).splitOn '\n').any lineHasBuildPat

/-- `re.search(r"(\d+)\s+Quarantined\s*/\s*skipped", text, re.I)` on
lowercased text. -/
def quarantineNum (hay : Chars) : Option Nat :=
  scanFirst tryAt hay
where
  tryAt (l : Chars) : Option Nat :=
    let d := l.takeWhile Char.isDigit
    if d.isEmpty then none
    else
      let r1 := l.drop d.length
      let ws := r1.takeWhile Char.isWhitespace
      if ws.isEmpty then none
      else
        let r2 := r1.drop ws.length
        if ("quarantined".data).isPrefixOf r2 then
          let r3 := (r2.drop 11).dropWhile Char.isWhitespace
          match r3 with
          | '/' :: r4 =>
            if ("skipped".data).isPrefixOf (r4.dropWhile Char.isWhitespace) then
              some (digitsToNat d)
            else none
          | _ => none
        else none

/-- Does the tail after an en-dash allow `.*$` to reach the end of the
string (no newline, or a single trailing newline)? -/
def dashTailOk (l : Chars) : Bool :=
  !l.contains '\n' || (l.getLast? = some '\n' && !l.dropLast.contains '\n')

/-- `re.sub(r"\s*–\s*.*$", "", s)`: cut from the whitespace run preceding
the first qualifying en-dash to the end. -/
def stripDashGo (accRev : Chars) : Chars → Chars
  | [] => accRev.reverse
  | c :: rest =>
    if c = '–' && dashTailOk rest then
      (accRev.dropWhile Char.isWhitespace).reverse
    else stripDashGo (c :: accRev) rest

def stripDashSuffix (s : Chars) : Chars := stripDashGo [] s

/-- `re.match(r"^(.+?)\s*\[([^\]]+)\]", ts)` of
`extract_test_suite_and_case`: lazily grow the prefix (which may not
contain a newline), then require optional whitespace, `[`, at least one
non-`]` character, and `]`. -/
def extractGo (accRev : Chars) : Chars → Option (Chars × Chars)
  | [] => none
  | c :: rest =>
    if c = '\n' then none
    else
      let accRev' := c :: accRev
      let afterWs := rest.dropWhile Char.isWhitespace
      match afterWs with
      | '[' :: r2 =>
        let content := r2.takeWhile (fun ch => ch ≠ ']')
        if !content.isEmpty && (r2.drop content.length).head? = some ']' then
          some (accRev'.reverse, content)
        else extractGo accRev' rest
      | _ => extractGo accRev' rest

/-- `extract_test_suite_and_case` of `check_ci_build.py` (lines 30-40):
`(suite, case)` with both stripped; no bracket pattern leaves the whole
stripped string as the case and no suite. -/
def extract_test_suite_and_case (ts : Chars) : Option Chars × Chars :=
  match extractGo [] ts with
  | some (pre, content) => (some (trimC pre), trimC content)
  | none => (none, trimC ts)

/-! ## `normalize_job_name` and `jobs_match` (`analyze_ci.py` lines 129-184) -/

/-- The filler substrings removed by `normalize_job_name`, in source order. -/
def fillerWords : List Chars :=
  ["testing", "protocol", "on", "the", "test", "tests", "ipv4", "ipv6",
   "basic"].map String.data

/-- `normalize_job_name`: lowercase, remove each filler substring in order,
collapse whitespace. -/
def normalize_job_name (job : String) : Chars :=
  collapseWs (fillerWords.foldl (fun s w => removeAll w s) (lowerS job.data))

/-- The build-metadata words discarded before the overlap test. -/
def commonWords : List Chars :=
  ["part", "build", "amd64", "arm8", "i386"].map String.data

/-- `jobs_match` on two already-normalized names: substring containment
either way, or ≥ 66 % overlap of the smaller word set.  The Python float
comparison `len(shared)/min_words >= 0.66` is modelled by the exact
rational comparison `50 * shared ≥ 33 * min` (the word sets are far too
small for the double rounding of `0.66` to matter). -/
def jobs_match (job1 job2 : Chars) : Bool :=
  if subList job1 job2 || subList job2 job1 then true
  else
    let words1 := (splitWs job1).eraseDups.filter (fun w => !commonWords.contains w)
    let words2 := (splitWs job2).eraseDups.filter (fun w => !commonWords.contains w)
    if words1.isEmpty || words2.isEmpty then false
    else
      let shared := words1.filter (fun w => words2.contains w)
      let minWords := min words1.length words2.length
      decide (0 < minWords ∧ 33 * minWords ≤ 50 * shared.length)

/-! ## Diagnostic sub-parser `parse_asan_details` (`check_ci_build.py` lines 79-238)

The BeautifulSoup log-text extraction (lines 84-121) is abstracted: the
function takes the extracted log-like text directly (empty text models the
`if not job_log_html` falsy guard, and an empty extraction can produce no
diagnostic signal either way).  The log-link scan of lines 106-120 only
computes a variable that is never used afterwards, so it is omitted here;
note, though, that its `urljoin(base_url["href"], href)` can raise
`ValueError` on a malformed base href — an error path outside this total
model, recorded under claim C2. -/

structure AsanDetails where
  has_issue : Bool := false
  error_type : Option String := none
  leak_type : Option String := none
  test_name : Option String := none
  leak_summary : Option String := none
  leak_size : Option String := none
  test_path : Option String := none
  leak_count : Option String := none
deriving DecidableEq, Repr

/-- Python truthiness of an optional string (`None` and `""` are falsy). -/
def truthyOS : Option String → Bool
  | none => false
  | some s => !s.data.isEmpty

/-- Python `a or b` on optional strings. -/
def pyOr (a b : Option String) : Option String := if truthyOS a then a else b

def isPrefixCI (lit l : Chars) : Bool := lit.isPrefixOf (lowerS l)

/-- `re.search(r"(Direct|Indirect) leak of (\d+) byte[s]? in (\d+) object", t, re.I)`:
returns (leak-type capture in original case, byte digits, object digits). -/
def leakCapture (hay : Chars) : Option (Chars × Chars × Chars) :=
  scanFirst tryAt hay
where
  tryAt (l : Chars) : Option (Chars × Chars × Chars) :=
    let alt : Option (Chars × Chars) :=
      if isPrefixCI "direct".data l then some (l.take 6, l.drop 6)
      else if isPrefixCI "indirect".data l then some (l.take 8, l.drop 8)
      else none
    match alt with
    | none => none
    | some (lt, r0) =>
      if isPrefixCI " leak of ".data r0 then
        let r1 := r0.drop 9
        let d1 := r1.takeWhile Char.isDigit
        if d1.isEmpty then none
        else
          let r2 := r1.drop d1.length
          if isPrefixCI " byte".data r2 then
            let r3 := r2.drop 5
            let r3' := match r3 with
              | c :: rest => if c.toLower = 's' then rest else r3
              | [] => r3
            if isPrefixCI " in ".data r3' then
              let r4 := r3'.drop 4
              let d2 := r4.takeWhile Char.isDigit
              if d2.isEmpty then none
              else if isPrefixCI " object".data (r4.drop d2.length) then
                some (lt, d1, d2)
              else none
            else none
          else none
      else none

/-- `re.search(lit + r"([^\n]+)", t, re.I)` for a literal line head:
capture the nonempty rest of the line. -/
def lineCapture (lit : Chars) (hay : Chars) : Option Chars :=
  scanFirst tryAt hay
where
  tryAt (l : Chars) : Option Chars :=
    if isPrefixCI lit l then
      let cap := (l.drop lit.length).takeWhile (fun c => c ≠ '\n')
      if cap.isEmpty then none else some cap
    else none

def summaryCapture (hay : Chars) : Option Chars :=
  lineCapture "summary: addresssanitizer: ".data hay

def errorCapture (hay : Chars) : Option Chars :=
  lineCapture "error: addresssanitizer: ".data hay

/-- `re.search(r"(\d+) byte", summary)` (case-sensitive). -/
def byteCapture (hay : Chars) : Option Chars :=
  scanFirst tryAt hay
where
  tryAt (l : Chars) : Option Chars :=
    let d := l.takeWhile Char.isDigit
    if d.isEmpty then none
    else if (" byte".data).isPrefixOf (l.drop d.length) then some d
    else none

/-- Pass 1 of `parse_asan_details`: the memory-leak pattern (lines 131-142). -/
def asanPass1 (log : Chars) (d : AsanDetails) : AsanDetails :=
  match leakCapture log with
  | none => d
  | some (lt, bytes, objs) =>
    { d with
      has_issue := true
      error_type := some "memory-leak"
      leak_type := some (String.mk lt)
      leak_size := some (String.mk (bytes ++ " bytes in ".data ++ objs ++ " object(s)".data)) }

/-- Pass 2: the `SUMMARY: AddressSanitizer:` line (lines 144-171). -/
def asanPass2 (log : Chars) (d : AsanDetails) : AsanDetails :=
  match summaryCapture log with
  | none => d
  | some cap =>
    let summary := trimC cap
    let d := { d with has_issue := true }
    if subList "leak".data (lowerS summary) then
      let d := if d.error_type = none then { d with error_type := some "memory-leak" } else d
      match byteCapture summary with
      | some b =>
        if d.leak_size = none then { d with leak_size := some (String.mk (b ++ " bytes".data)) }
        else d
      | none => d
    else if subList "heap-buffer-overflow".data (lowerS summary) then
      { d with error_type := some "heap-buffer-overflow" }
    else if subList "use-after-free".data (lowerS summary) then
      { d with error_type := some "use-after-free" }
    else if subList "stack-buffer-overflow".data (lowerS summary) then
      { d with error_type := some "stack-buffer-overflow" }
    else if subList "global-buffer-overflow".data (lowerS summary) then
      { d with error_type := some "global-buffer-overflow" }
    else
      let firstTok : String :=
        if summary.isEmpty then "unknown" else String.mk ((splitWs summary).headD [])
      { d with error_type := some firstTok }

/-- Pass 3: the `ERROR: AddressSanitizer:` line (lines 173-182), guarded by
`if error_match and not details["error_type"]`. -/
def asanPass3 (log : Chars) (d : AsanDetails) : AsanDetails :=
  match errorCapture log with
  | none => d
  | some cap =>
    if d.error_type = none then
      { d with has_issue := true, error_type := some (String.mk (trimC cap)) }
    else d

/-! ### Test-name recovery (lines 184-220) -/

/-- A `[a-zA-Z0-9_.-]` character. -/
def isTnChar (c : Char) : Bool := c.isAlphanum || c = '_' || c = '.' || c = '-'

/-- `finditer` driver: scan left to right, resuming after each match; the
matcher receives the previous character (for `^` in `re.MULTILINE`) and
must consume at least one character. -/
def scanAllGo (tryAt : Option Char → Chars → Option (Chars × Option Char × Chars)) :
    Nat → Option Char → Chars → List Chars
  | 0, _, _ => []
  | fuel + 1, prev, l =>
    match tryAt prev l with
    | some (cap, lastc, after) => cap :: scanAllGo tryAt fuel lastc after
    | none =>
      match l with
      | [] => []
      | c :: rest => scanAllGo tryAt fuel (some c) rest

def scanAll (tryAt : Option Char → Chars → Option (Chars × Option Char × Chars))
    (l : Chars) : List Chars :=
  scanAllGo tryAt (l.length + 1) none l

/-- `(?:Running test:|Test case:|Testing:)\s+([a-zA-Z0-9_.-]+)`, `re.I`. -/
def tnTryAt1 (_ : Option Char) (l : Chars) : Option (Chars × Option Char × Chars) :=
  let lit? : Option Nat :=
    if isPrefixCI "running test:".data l then some 13
    else if isPrefixCI "test case:".data l then some 10
    else if isPrefixCI "testing:".data l then some 8
    else none
  match lit? with
  | none => none
  | some n =>
    let r := l.drop n
    let ws := r.takeWhile Char.isWhitespace
    if ws.isEmpty then none
    else
      let cap := (r.drop ws.length).takeWhile isTnChar
      if cap.isEmpty then none
      else some (cap, cap.getLast?, (r.drop ws.length).drop cap.length)

/-- `===== ([a-zA-Z0-9_.-]+) =====`. -/
def tnTryAt2 (_ : Option Char) (l : Chars) : Option (Chars × Option Char × Chars) :=
  if ("===== ".data).isPrefixOf l then
    let r := l.drop 6
    let cap := r.takeWhile isTnChar
    if cap.isEmpty then none
    else
      let r2 := r.drop cap.length
      if (" =====".data).isPrefixOf r2 then some (cap, some '=', r2.drop 6)
      else none
  else none

/-- Largest `L` with `1 ≤ L ≤ run.length - 3` such that `run[L] = '.'` and
`run[L+1..L+2]` is `py` case-insensitively: the greedy backtracking of
`([a-zA-Z0-9_.-]+)\.py`. -/
def findDotPy (run : Chars) : Option Nat :=
  go (run.length)
where
  go : Nat → Option Nat
    | 0 => none
    | l + 1 =>
      if okAt (l + 1) then some (l + 1) else go l
  okAt (i : Nat) : Bool :=
    decide (i + 3 ≤ run.length) && run.getD i ' ' = '.'
      && (run.getD (i + 1) ' ').toLower = 'p' && (run.getD (i + 2) ' ').toLower = 'y'

/-- `/tests?/[^/]+/([a-zA-Z0-9_.-]+)\.py`, `re.I`. -/
def tnTryAt3 (_ : Option Char) (l : Chars) : Option (Chars × Option Char × Chars) :=
  match l with
  | '/' :: r0 =>
    if isPrefixCI "test".data r0 then
      let r1 := r0.drop 4
      let r2? : Option Chars :=
        match r1 with
        | c :: rest =>
          if c.toLower = 's' then
            (match rest with
             | '/' :: r => some r
             | _ => none)
          else if c = '/' then some rest
          else none
        | [] => none
      match r2? with
      | none => none
      | some r2 =>
        let seg := r2.takeWhile (fun c => c ≠ '/')
        if seg.isEmpty then none
        else
          match r2.drop seg.length with
          | '/' :: r3 =>
            let run := r3.takeWhile isTnChar
            (match findDotPy run with
             | none => none
             | some i =>
               some (run.take i, run.getD (i + 2) 'y', (r3.drop (i + 3))))
          | _ => none
    else none
  | _ => none

/-- `test[_-]([a-zA-Z0-9_.-]+)`, `re.I`. -/
def tnTryAt4 (_ : Option Char) (l : Chars) : Option (Chars × Option Char × Chars) :=
  if isPrefixCI "test".data l then
    match l.drop 4 with
    | c :: rest =>
      if c = '_' || c = '-' then
        let cap := rest.takeWhile isTnChar
        if cap.isEmpty then none
        else some (cap, cap.getLast?, rest.drop cap.length)
      else none
    | [] => none
  else none

/-- `^([a-zA-Z0-9_]+)::test` with `re.MULTILINE`: only at string start or
just after a newline. -/
def tnTryAt5 (prev : Option Char) (l : Chars) : Option (Chars × Option Char × Chars) :=
  let atLineStart := match prev with | none => true | some c => c = '\n'
  if !atLineStart then none
  else
    let run := l.takeWhile isWordChar
    if run.isEmpty then none
    else
      let r := l.drop run.length
      if isPrefixCI "::test".data r then some (run, some 't', r.drop 6)
      else none

/-- `re.sub(r"\.pyc?$", "", name)`. -/
def stripPySuffix (name : Chars) : Chars :=
  if (".pyc".data.reverse).isPrefixOf name.reverse then name.dropLast.dropLast.dropLast.dropLast
  else if (".py".data.reverse).isPrefixOf name.reverse then name.dropLast.dropLast.dropLast
  else name

/-- The pattern loop of lines 207-220: first pattern with any match wins,
its last (closest-preceding) capture is cleaned up. -/
def lastCaptureOfPatterns (context : Chars) : Option Chars :=
  firstNonEmpty
    [scanAll tnTryAt1 context, scanAll tnTryAt2 context, scanAll tnTryAt3 context,
     scanAll tnTryAt4 context, scanAll tnTryAt5 context]
where
  firstNonEmpty : List (List Chars) → Option Chars
    | [] => none
    | ms :: rest => match ms.getLast? with
      | some c => some c
      | none => firstNonEmpty rest

/-- Lines 195-220: locate the error position via `str.find` on the three
markers (`if pos > 0`!), search the preceding 10000 characters, clean up
the captured name. -/
def asanTestRecovery (log : Chars) (d : AsanDetails) : AsanDetails :=
  if !d.has_issue then d
  else
    let errorPos : Int := firstMarkerPos ["leak of", "ERROR:", "SUMMARY:"]
    if errorPos ≤ 0 then d
    else
      let pos := errorPos.toNat
      let start := pos - 10000
      let context := (log.drop start).take (pos - start)
      match lastCaptureOfPatterns context with
      | none => d
      | some cap =>
        if cap.isEmpty then d
        else
          let t1 := stripPySuffix cap
          let t2 := if ("test".data).isPrefixOf t1 then t1 else "test_".data ++ t1
          { d with test_name := some (String.mk t2) }
where
  firstMarkerPos : List String → Int
    | [] => -1
    | m :: ms =>
      let p := strFind log m.data
      if p > 0 then p else firstMarkerPos ms

/-- The summary-message construction of lines 222-236, with Python `or`
truthiness on the optional fields. -/
def asanSummarize (d : AsanDetails) : AsanDetails :=
  if !d.has_issue then d
  else
    let error_type := (pyOr (pyOr d.error_type d.leak_type) (some "Unknown issue")).getD ""
    if d.error_type = some "memory-leak" then
      let lt := (pyOr d.leak_type (some "Memory")).getD ""
      let size := (pyOr d.leak_size (some "unknown size")).getD ""
      let test := (pyOr d.test_name (some "unknown test")).getD ""
      let msg := String.mk (lt.data ++ " leak detected (".data ++ size.data ++ ") in ".data ++ test.data)
      { d with leak_summary := some msg }
    else
      let test := (pyOr d.test_name (some "unknown test")).getD ""
      if truthyOS d.leak_size then
        let msg := String.mk (error_type.data ++ " (".data ++ (d.leak_size.getD "").data ++ ") in ".data ++ test.data)
        { d with leak_summary := some msg }
      else
        let msg := String.mk (error_type.data ++ " in ".data ++ test.data)
        { d with leak_summary := some msg }

/-- `parse_asan_details` (lines 79-238) on the extracted log text: the four
passes in order, then the summary message; `None` when no diagnostic signal
was detected (and on falsy input). -/
def parse_asan_details (logText : Chars) : Option AsanDetails :=
  if logText.isEmpty then none
  else
    let d := asanSummarize (asanTestRecovery logText
      (asanPass3 logText (asanPass2 logText (asanPass1 logText {}))))
    if d.has_issue then some d else none

/-! ## Document model for `parse_build_status` (`check_ci_build.py` lines 241-721)

Each field holds what one BeautifulSoup query of the source extracts:
`h1List` the page's `<h1>` elements (text, and the `.string` attribute used
by the `soup.find("h1", string=...)` query), `textNodes` the page's
`NavigableString`s in document order (`soup.get_text()` is their
concatenation, and `soup.find(string=...)` scans them), `failingSince` the
presence of `<dt class="failing-since">`, `completedRaw` the stripped text
of the `<time>` element under `dt.completed → dd`, `tables` the result of
`soup.find_all("table")` (header-row text plus the remaining rows, each a
list of `<td>` cells), `fixedSection`/`existingSection` the table reached
from the "Fixed tests" / "Existing test failures" heading string (parent
table or next table), `jobItems` the `li(id=^job-)` elements, and
`logText` the log text that `parse_asan_details` extracts from this page's
HTML (`<pre>` content or full text).

Totality caveat: `JobItem.statusClass` holds the value of
`job_item.get("class", [""])[0]` (line 631) on the assumption that this
subscript returns.  It does not always: a present-but-empty `class`
attribute makes it raise `IndexError` (see `jobItemStatusClass` and claim
C2) — this model covers only the non-raising documents, which is what the
claims other than C2 quantify over. -/

structure H1 where
  text : String
  strAttr : Option String
deriving DecidableEq, Repr

structure Cell where
  text : String
  testClassSpan : Option String
  testNameLink : Option String
  aText : Option String
deriving DecidableEq, Repr

structure Row where
  cells : List Cell
  text : String
deriving DecidableEq, Repr

structure Table where
  headerText : Option String
  rows : List Row
deriving DecidableEq, Repr

structure JobItem where
  statusClass : String
  title : String
  key : String
deriving DecidableEq, Repr

structure Doc where
  h1List : List H1 := []
  textNodes : List String := []
  failingSince : Bool := false
  completedRaw : Option String := none
  tables : List Table := []
  fixedSection : Option Table := none
  existingSection : Option Table := none
  jobItems : List JobItem := []
  logText : String := ""
deriving DecidableEq, Repr

structure FailureR where
  test : String
  suite : Option String
  case : String
  job : String
  error : String
deriving DecidableEq, Repr

structure JobFailureR where
  name : String
  status : String
  reason : String
  key : String
  asan_details : Option AsanDetails
deriving DecidableEq, Repr

structure Results where
  url : String
  build_number : Option String
  status : String
  completed_time : Option String
  new_failures : List FailureR
  existing_failures : List FailureR
  fixed_tests : List String
  failed_jobs : List JobFailureR
  quarantined_skipped : Nat
  total_tests : Nat
deriving DecidableEq, Repr

/-- `soup.get_text()`: concatenation of the page's text nodes. -/
def pageTextOf (doc : Doc) : Chars :=
  (doc.textNodes.map String.data).flatten

/-- Lines 258-271: build number from the URL (`FRR-FRR-(\d+)` as `#N`),
overridden by a `#[\d,]+` token in the first `<h1>`'s text. -/
def build_number_of (doc : Doc) (url : String) : Option String :=
  let fromUrl : Option String := (urlBuildNum url.data).map (fun d => String.mk ('#' :: d))
  match doc.h1List.head? with
  | none => fromUrl
  | some h =>
    match hashNumToken h.text.data with
    | some tok => some (String.mk tok)
    | none => fromUrl

/-- The word-boundary status checks shared by methods 1 and 2
(`\bfailed\b`, then `\b(successful|success)\b`), on lowercased text. -/
def statusOfText (lowered : Chars) : String :=
  if hasWord "failed".data lowered then "FAILED"
  else if hasWord "successful".data lowered || hasWord "success".data lowered then "SUCCESS"
  else "Unknown"

/-- Status methods 1-4 of `parse_build_status` (lines 263-320), each
applied only while the status is still `Unknown`:
1. word-boundary tokens in the first `<h1>`'s text;
2. the text of an `<h1>` whose `.string` contains "Build" (case-insensitive),
   else the first text node matching `Build.*#\d+.*(failed|successful)`;
3. nonzero "New test failures N" / "Existing test failures N" counters in
   the page text;
4. presence of the `failing-since` element. -/
def status_m1 (doc : Doc) : String :=
  match doc.h1List.head? with
  | some h => statusOfText (lowerS h.text.data)
  | none => "Unknown"

def status_m2 (doc : Doc) : String :=
  let h1Build := doc.h1List.find? (fun h =>
    match h.strAttr with
    | some st => subList "build".data (lowerS st.data)
    | none => false)
  let summaryText : Option String :=
    match h1Build with
    | some h => some h.text
    | none => doc.textNodes.find? (fun s => buildSummaryPat s.data)
  match summaryText with
  | some t => statusOfText (lowerS t.data)
  | none => "Unknown"

def status_m3 (doc : Doc) : String :=
  let pt := lowerS (pageTextOf doc)
  if (litWsNum "new test failures".data pt).getD 0 > 0 then "FAILED"
  else if (litWsNum "existing test failures".data pt).getD 0 > 0 then "FAILED"
  else "Unknown"

def status_m4 (doc : Doc) : String :=
  if doc.failingSince then "FAILED" else "Unknown"

def status_heuristics (doc : Doc) : String :=
  if status_m1 doc ≠ "Unknown" then status_m1 doc
  else if status_m2 doc ≠ "Unknown" then status_m2 doc
  else if status_m3 doc ≠ "Unknown" then status_m3 doc
  else status_m4 doc

/-- Lines 326-336: completion time text with the `– … ago` suffix removed. -/
def completed_time_of (doc : Doc) : Option String :=
  doc.completedRaw.map (fun s => String.mk (stripDashSuffix (trimC s.data)))

/-- Lines 342-344. -/
def total_tests_of (doc : Doc) : Nat :=
  (litColonWsNum "total tests".data (lowerS (pageTextOf doc))).getD 0

/-- Lines 347-351. -/
def quarantined_of (doc : Doc) : Nat :=
  (quarantineNum (lowerS (pageTextOf doc))).getD 0

/-! ### Page-level sanitizer errors (lines 353-401) -/

structure AsanPageErr where
  test_path : String
  test_name : String
  leak_count : Option String
  error_type : String
deriving DecidableEq, Repr

/-- `re.finditer(r"Address Sanitizer Error detected in ([^\n]+)", page_text, re.I)`:
(whole match, capture) pairs in order. -/
def asanErrScan : Nat → Chars → List (Chars × Chars)
  | 0, _ => []
  | fuel + 1, l =>
    if isPrefixCI "address sanitizer error detected in ".data l then
      let cap := (l.drop 36).takeWhile (fun c => c ≠ '\n')
      if cap.isEmpty then
        match l with
        | [] => []
        | _ :: rest => asanErrScan fuel rest
      else (l.take 36 ++ cap, cap) :: asanErrScan fuel ((l.drop 36).drop cap.length)
    else
      match l with
      | [] => []
      | _ :: rest => asanErrScan fuel rest

/-- `re.search(r"(\d+)\s+Leaks?\s+triggered", ctx, re.I)`. -/
def leaksTriggered (hay : Chars) : Option Chars :=
  scanFirst tryAt hay
where
  tryAt (l : Chars) : Option Chars :=
    let d := l.takeWhile Char.isDigit
    if d.isEmpty then none
    else
      let r1 := l.drop d.length
      let ws := r1.takeWhile Char.isWhitespace
      if ws.isEmpty then none
      else
        let r2 := r1.drop ws.length
        if isPrefixCI "leak".data r2 then
          let r3 := r2.drop 4
          let r3' := match r3 with
            | c :: rest => if c.toLower = 's' then rest else r3
            | [] => r3
          let ws2 := r3'.takeWhile Char.isWhitespace
          if ws2.isEmpty then none
          else if isPrefixCI "triggered".data (r3'.drop ws2.length) then some d
          else none
        else none

/-- `re.search(r"([a-zA-Z0-9_.-]+)\.test_([a-zA-Z0-9_.-]+)", path)` with the
greedy backtracking forced by `.` being a class character: at the leftmost
viable position, the latest `.test_` split of the maximal run wins. -/
def dottedTestCapture (s : Chars) : Option (Chars × Chars) :=
  scanFirst tryAt s
where
  tryAt (l : Chars) : Option (Chars × Chars) :=
    let run := l.takeWhile isTnChar
    if run.isEmpty then none
    else
      match go run run.length with
      | some i => some (run.take i, run.drop (i + 6))
      | none => none
  go (run : Chars) : Nat → Option Nat
    | 0 => none
    | i + 1 => if okAt run (i + 1) then some (i + 1) else go run i
  okAt (run : Chars) (i : Nat) : Bool :=
    decide (i + 7 ≤ run.length) && (".test_".data).isPrefixOf (run.drop i)

/-- `re.search(r"([a-zA-Z0-9_]+)\.test_([a-zA-Z0-9_]+)", path)`: the simpler
variant (`.` not in the class, so no backtracking). -/
def wordDotTestCapture (s : Chars) : Option (Chars × Chars) :=
  scanFirst tryAt s
where
  tryAt (l : Chars) : Option (Chars × Chars) :=
    let run := l.takeWhile isWordChar
    if run.isEmpty then none
    else
      let r := l.drop run.length
      if (".test_".data).isPrefixOf r then
        let run2 := (r.drop 6).takeWhile isWordChar
        if run2.isEmpty then none else some (run, run2)
      else none

/-- Lines 362-401: build the page-level sanitizer error records. -/
def mkAsanPageErr (pageText : Chars) (g0 g1 : Chars) : Option AsanPageErr :=
  let test_path := trimC g1
  let pos := strFind pageText g0
  if pos ≥ 0 then
    let context := (pageText.drop pos.toNat).take 500
    let leak_count := (leaksTriggered context).map String.mk
    let test_name : Chars :=
      match dottedTestCapture test_path with
      | some (suite, t) => suite ++ ".test_".data ++ t
      | none =>
        match wordDotTestCapture test_path with
        | some (_, t) => "test_".data ++ t
        | none =>
          if test_path.contains '/' then test_path.takeWhile (fun c => c ≠ '/')
          else test_path
    some { test_path := String.mk test_path, test_name := String.mk test_name,
           leak_count := leak_count,
           error_type := if leak_count.isSome then "memory-leak" else "asan-error" }
  else none

def asan_errors_of (doc : Doc) : List AsanPageErr :=
  let pt := pageTextOf doc
  ((asanErrScan (pt.length + 1) pt).map (fun p => mkAsanPageErr pt p.1 p.2)).reduceOption

/-! ### Failure-table parsing (lines 403-522 and 524-626) -/

instance : Inhabited Cell := ⟨⟨"", none, none, none⟩⟩

/-- Concatenation of strings at the character level. -/
def strCat (l : List String) : String := String.mk (l.map String.data).flatten

/-- `job_cell.find("a")` truthiness then text, else the cell's own text. -/
def cellJobText (c : Cell) : String :=
  match c.aText with
  | some t => t
  | none => c.text

/-- Does the header row mark a test-results table
(`"status" in header_text and "test" in header_text`)? -/
def isTestTableHeader (t : Table) : Bool :=
  match t.headerText with
  | some ht => subList "status".data (lowerS ht.data) && subList "test".data (lowerS ht.data)
  | none => false

/-- Pair each row with its following sibling row. -/
def rowsWithNext : List Row → List (Row × Option Row)
  | [] => []
  | [r] => [(r, none)]
  | r :: r2 :: rest => (r, some r2) :: rowsWithNext (r2 :: rest)

def errorKeywords : List Chars :=
  ["Error", "Failure", "Assert", "RFC", "MUST", "Exception"].map String.data

/-- The adjacent-row error excerpt (lines 491-512): taken from the next row
only if it has at most two cells and contains an error-indicator substring. -/
def errorMsgOfNext : Option Row → String
  | none => ""
  | some nrow =>
    if nrow.cells.length ≤ 2 then
      if errorKeywords.any (fun kw => subList kw nrow.text.data) then nrow.text else ""
    else ""

/-- One row of a new-failures table (lines 416-522). -/
def newFailureOfRow (row : Row) (next? : Option Row) : Option FailureR :=
  let cells := row.cells
  if cells.length < 2 then none
  else
    let status_text := lowerS (cells.headD default).text.data
    let is_failure := subList "fail".data status_text || subList "collapse".data status_text
    if !is_failure then none
    else
      let test_cell := if 3 ≤ cells.length then cells.getD 2 default else cells.getD 1 default
      let bothTags := test_cell.testClassSpan.isSome && test_cell.testNameLink.isSome
      let test_name : String :=
        if bothTags then
          strCat [test_cell.testClassSpan.getD "", " [", test_cell.testNameLink.getD "", "]"]
        else if test_cell.testNameLink.isSome then test_cell.testNameLink.getD ""
        else test_cell.text
      let skipList : List Chars :=
        ["test", "status", "view job", "failed", "collapse"].map String.data
      if test_name.data.isEmpty || skipList.contains (lowerS test_name.data) then none
      else
        let job_name : String :=
          if 4 ≤ cells.length then cellJobText (cells.getD 3 default) else ""
        let sc : Option Chars × Chars :=
          if bothTags then
            (some (test_cell.testClassSpan.getD "").data, (test_cell.testNameLink.getD "").data)
          else extract_test_suite_and_case test_name.data
        let suite_name := sc.1
        let case_name := sc.2
        let formatted_case : Chars :=
          match suite_name with
          | some s => if !s.isEmpty && !case_name.isEmpty then s ++ '.' :: case_name else case_name
          | none => case_name
        some { test := test_name
               suite := suite_name.map String.mk
               case := String.mk formatted_case
               job := job_name
               error := errorMsgOfNext next? }

def new_failures_of (doc : Doc) : List FailureR :=
  (doc.tables.filter isTestTableHeader).flatMap
    (fun t => (rowsWithNext t.rows).filterMap (fun p => newFailureOfRow p.1 p.2))

/-- Shared row handling of the "Fixed tests" / "Existing test failures"
sections (lines 551-604): `(test_name, suite, formatted_case, job)`. -/
def sectionRowCore (row : Row) : Option (String × Option String × String × String) :=
  let cells := row.cells
  if cells.length < 3 then none
  else
    let test_cell := cells.getD 2 default
    let bothTags := test_cell.testClassSpan.isSome && test_cell.testNameLink.isSome
    let parsed : String × Option Chars × Chars :=
      if bothTags then
        let s := (test_cell.testClassSpan.getD "").data
        let c := (test_cell.testNameLink.getD "").data
        (strCat [test_cell.testClassSpan.getD "", " [", test_cell.testNameLink.getD "", "]"],
         some s, c)
      else if test_cell.testNameLink.isSome then
        let c := (test_cell.testNameLink.getD "").data
        (test_cell.testNameLink.getD "", none, c)
      else
        let sc := extract_test_suite_and_case test_cell.text.data
        (test_cell.text, sc.1, sc.2)
    let test_name := parsed.1
    let suite_name := parsed.2.1
    let case_name := parsed.2.2
    let skipList : List Chars := ["test", "status", "failed", "expand"].map String.data
    if test_name.data.isEmpty || skipList.contains (lowerS test_name.data) then none
    else
      let formatted_case : Chars :=
        match suite_name with
        | some s => if !s.isEmpty && !case_name.isEmpty then s ++ '.' :: case_name else case_name
        | none => case_name
      let job_col := if 6 ≤ cells.length then 4 else 3
      let job_name : String :=
        if job_col < cells.length then cellJobText (cells.getD job_col default) else ""
      some (test_name, suite_name.map String.mk, String.mk formatted_case, job_name)

/-- Does the section heading's table pass the header checks of lines
540-548 (not an artifacts table, and test/status in the header)? -/
def sectionTableOk (t : Table) : Bool :=
  match t.headerText with
  | none => false
  | some ht =>
    let h := lowerS ht.data
    if subList "artifact".data h || subList "file size".data h then false
    else subList "test".data h || subList "status".data h

def fixed_tests_of (doc : Doc) : List String :=
  match doc.fixedSection with
  | none => []
  | some t =>
    if !sectionTableOk t then []
    else
      t.rows.filterMap (fun row =>
        (sectionRowCore row).bind (fun q =>
          let status_text := lowerS (row.cells.headD default).text.data
          if subList "success".data status_text || !subList "expand".data status_text then
            some q.1
          else none))

def existing_failures_of (doc : Doc) : List FailureR :=
  match doc.existingSection with
  | none => []
  | some t =>
    if !sectionTableOk t then []
    else
      t.rows.filterMap (fun row =>
        (sectionRowCore row).map (fun q =>
          { test := q.1, suite := q.2.1, case := q.2.2.1, job := q.2.2.2,
            error := "" }))

/-! ### Failed-job extraction (lines 628-701) -/

/-- `fetch_job_log` (lines 54-76): falsy key short-circuits to `None`; the
URL-pattern attempts and HTTP fetch are the external log-fetch
collaborator, given as an oracle from job key to fetched text. -/
def fetch_job_log (oracle : String → Option String) (key : String) : Option String :=
  if key.data.isEmpty then none else oracle key

/-- `asan_details and asan_details.get("leak_summary")` truthiness. -/
def summaryTruthy : Option AsanDetails → Bool
  | none => false
  | some d => truthyOS d.leak_summary

/-- `re.search(r"AddressSanitizer|ASAN", job_title, re.I)`. -/
def isAsanTitle (t : String) : Bool :=
  subListCI "addresssanitizer".data t.data || subListCI "asan".data t.data

/-- `soup.find(string=re.compile(r"Detected hung build state"))`. -/
def hungMsgPresent (doc : Doc) : Bool :=
  doc.textNodes.any (fun s => subList "Detected hung build state".data s.data)

/-- One `li(id=^job-)` item of class `Failed`/`Unknown` (lines 630-701). -/
def failedJobOfItem (doc : Doc) (oracle : String → Option String)
    (asanErrs : List AsanPageErr) (hung : Bool) (j : JobItem) : Option JobFailureR :=
  if j.statusClass ≠ "Failed" && j.statusClass ≠ "Unknown" then none
  else if j.statusClass = "Unknown" then
    let reason := if hung then "Hung build detected (logs quiet for extended period)"
                  else "Unknown status"
    some { name := j.title, status := j.statusClass, reason := reason, key := j.key,
           asan_details := none }
  else if isAsanTitle j.title then
    let matching := asanErrs.filter (fun e => !e.test_name.data.isEmpty)
    match matching.head? with
    | some e =>
      let reason :=
        if truthyOS e.leak_count then
          strCat ["Memory leak detected (", e.leak_count.getD "", " leak(s)) in ", e.test_name]
        else strCat ["AddressSanitizer error in ", e.test_name]
      let asan : AsanDetails :=
        { has_issue := true
          error_type := some (if truthyOS e.leak_count then "memory-leak" else "asan-error")
          test_name := some e.test_name
          test_path := some e.test_path
          leak_count := e.leak_count
          leak_summary := some reason }
      some { name := j.title, status := j.statusClass, reason := reason, key := j.key,
             asan_details := some asan }
    | none =>
      let d0 := parse_asan_details doc.logText.data
      let d1 :=
        if !summaryTruthy d0 then
          match fetch_job_log oracle j.key with
          | some logHtml =>
            match parse_asan_details logHtml.data with
            | some jd => some jd
            | none => d0
          | none => d0
        else d0
      let reason :=
        if summaryTruthy d1 then (d1.map AsanDetails.leak_summary).join.getD ""
        else "AddressSanitizer detected issue - check job logs for details"
      some { name := j.title, status := j.statusClass, reason := reason, key := j.key,
             asan_details := d1 }
  else
    some { name := j.title, status := j.statusClass, reason := "Job failed", key := j.key,
           asan_details := none }

def failed_jobs_of (doc : Doc) (oracle : String → Option String) : List JobFailureR :=
  let asanErrs := asan_errors_of doc
  let hung := hungMsgPresent doc
  doc.jobItems.filterMap (failedJobOfItem doc oracle asanErrs hung)

/-! ### Final status reconciliation and the full parser -/

/-- Lines 703-719: the two post-hoc passes, applied to the status produced
by the per-section heuristics. -/
def final_status (statusH : String) (nf ef : List FailureR) (fj : List JobFailureR)
    (total : Nat) : String :=
  let s5 := if statusH = "Unknown" ∧ (nf ≠ [] ∨ ef ≠ [] ∨ fj ≠ []) then "FAILED" else statusH
  if s5 = "Unknown" ∧ 0 < total ∧ nf = [] ∧ ef = [] ∧ fj = [] then "SUCCESS" else s5

/-- `parse_build_status(html_content, url)` (lines 241-721), over the
document model and the job-log fetch oracle. -/
def parse_build_status (doc : Doc) (url : String) (oracle : String → Option String) :
    Results :=
  let nf := new_failures_of doc
  let ef := existing_failures_of doc
  let fj := failed_jobs_of doc oracle
  { url := url
    build_number := build_number_of doc url
    status := final_status (status_heuristics doc) nf ef fj (total_tests_of doc)
    completed_time := completed_time_of doc
    new_failures := nf
    existing_failures := ef
    fixed_tests := fixed_tests_of doc
    failed_jobs := fj
    quarantined_skipped := quarantined_of doc
    total_tests := total_tests_of doc }

/-! ## Time-windowed build walker `get_builds_from_week`
(`analyze_ci.py` lines 37-126)

`fetchDoc` is the external fetch collaborator (`download_page_safe` +
BeautifulSoup): `none` models a raised fetch error.  The second component
of the result is the trace of build ids fetched, in order, making the
"which ids were fetched" effect observable. -/

structure BuildEntry where
  number : Nat
  url : String
  results : Results
deriving DecidableEq, Repr

def buildUrl (n : Nat) : String :=
  strCat ["https://ci1.netdef.org/browse/FRR-FRR-", String.mk (Nat.toDigits 10 n)]

/-- The `for i in range(200)` loop (lines 85-123): stop on id underflow;
skip fetch failures; parse; stop (discarding the current build) when its
parsed completion date is before the cutoff; otherwise append. -/
def buildLoop (fetchDoc : Nat → Option Doc) (oracle : String → Option String)
    (currentNum : Nat) (cutoff : Int) : Nat → Nat → List BuildEntry × List Nat
  | _, 0 => ([], [])
  | i, fuel + 1 =>
    let buildNum := currentNum - i
    if buildNum < 1 then ([], [])
    else
      match fetchDoc buildNum with
      | none =>
        let r := buildLoop fetchDoc oracle currentNum cutoff (i + 1) fuel
        (r.1, buildNum :: r.2)
      | some doc =>
        let results := parse_build_status doc (buildUrl buildNum) oracle
        match completionOrdinal results.completed_time with
        | some d =>
          if (d : Int) < cutoff then ([], [buildNum])
          else
            let r := buildLoop fetchDoc oracle currentNum cutoff (i + 1) fuel
            (⟨buildNum, buildUrl buildNum, results⟩ :: r.1, buildNum :: r.2)
        | none =>
          let r := buildLoop fetchDoc oracle currentNum cutoff (i + 1) fuel
          (⟨buildNum, buildUrl buildNum, results⟩ :: r.1, buildNum :: r.2)

/-- `get_builds_from_week(latest_build_num, days)`: fetch the reference
build, establish its completion date (zero results if impossible), then
walk at most 200 ids backwards until the cutoff `reference − days` is
crossed. -/
def get_builds_from_week (fetchDoc : Nat → Option Doc) (oracle : String → Option String)
    (latest : Nat) (days : Nat) : List BuildEntry × List Nat :=
  match fetchDoc latest with
  | none => ([], [latest])
  | some doc =>
    let results := parse_build_status doc (buildUrl latest) oracle
    match completionOrdinal results.completed_time with
    | none => ([], [latest])
    | some refOrd =>
      let cutoff : Int := (refOrd : Int) - (days : Int)
      let r := buildLoop fetchDoc oracle latest cutoff 0 200
      (r.1, latest :: r.2)

/-! ## Aggregator `analyze_builds` (`analyze_ci.py` lines 187-293)

Dictionaries are association lists in insertion order; `defaultdict`
access-and-mutate is update-or-append with the zero default. -/

structure TestStat where
  count : Nat := 0
  jobs : List (String × Nat) := []
  builds : List Nat := []
deriving DecidableEq, Repr

structure Stats where
  total : Nat
  successful : Nat
  failed : Nat
  combined_failures : List (String × Nat)
  test_failures : List (String × TestStat)
  hung_jobs : List (String × Nat)
  error_types : List (String × Nat)
  builds_by_status : List (String × List Nat)
deriving DecidableEq, Repr

def bumpAL : List (String × Nat) → String → List (String × Nat)
  | [], k => [(k, 1)]
  | (k', v) :: rest, k =>
    if k' = k then (k', v + 1) :: rest else (k', v) :: bumpAL rest k

def appendAL : List (String × List Nat) → String → Nat → List (String × List Nat)
  | [], k, n => [(k, [n])]
  | (k', v) :: rest, k, n =>
    if k' = k then (k', v ++ [n]) :: rest else (k', v) :: appendAL rest k n

def updTF : List (String × TestStat) → String → (TestStat → TestStat) → List (String × TestStat)
  | [], k, f => [(k, f {})]
  | (k', v) :: rest, k, f =>
    if k' = k then (k', f v) :: rest else (k', v) :: updTF rest k f

def getTF (m : List (String × TestStat)) (k : String) : TestStat :=
  ((m.find? (fun p => decide (p.1 = k))).map Prod.snd).getD {}

def getAL (m : List (String × Nat)) (k : String) : Nat :=
  ((m.find? (fun p => decide (p.1 = k))).map Prod.snd).getD 0

/-- Python `set.add` on a duplicate-free list. -/
def addSetNat (l : List Nat) (n : Nat) : List Nat :=
  if l.contains n then l else l ++ [n]

def addSetChars (l : List Chars) (x : Chars) : List Chars :=
  if l.contains x then l else l ++ [x]

/-- The error-type histogram classification (lines 237-245). -/
def classifyError (et : List (String × Nat)) (error : String) : List (String × Nat) :=
  if subList "AssertionError".data error.data then bumpAL et "AssertionError"
  else if subList "RFC".data error.data || subList "MUST".data error.data then
    bumpAL et "RFC Compliance"
  else if subList "timeout".data (lowerS error.data) || subList "hung".data (lowerS error.data) then
    bumpAL et "Timeout/Hung"
  else if !error.data.isEmpty then bumpAL et "Other Error"
  else et

/-- One failure row of the new/existing loops (lines 220-261); error
classification only for new failures. -/
def recordTestFailure (buildNum : Nat) (isNew : Bool) (st : Stats × List Chars)
    (f : FailureR) : Stats × List Chars :=
  let s := st.1
  let combined_key := strCat [f.job, " - ", f.case]
  let s := { s with combined_failures := bumpAL s.combined_failures combined_key }
  let s := { s with test_failures := updTF s.test_failures f.case (fun t =>
    { t with count := t.count + 1, jobs := bumpAL t.jobs f.job,
             builds := addSetNat t.builds buildNum }) }
  let tracked := addSetChars st.2 (normalize_job_name f.job)
  let s := if isNew then { s with error_types := classifyError s.error_types f.error } else s
  (s, tracked)

/-- One failed-job entry (lines 263-291): hung jobs always counted;
`Failed` jobs suppressed when their normalized name matches a job already
carrying a test failure in this build. -/
def recordFailedJob (buildNum : Nat) (tracked : List Chars) (s : Stats)
    (j : JobFailureR) : Stats :=
  let job_normalized := normalize_job_name j.name
  if j.status = "Unknown" then
    let s := { s with hung_jobs := bumpAL s.hung_jobs j.name }
    { s with test_failures := updTF s.test_failures "(Hung/Timeout)" (fun t =>
        { t with count := t.count + 1, jobs := bumpAL t.jobs j.name,
                 builds := addSetNat t.builds buildNum }) }
  else
    let already := tracked.any (fun t => jobs_match job_normalized t)
    if already then s
    else
      let combined_key := strCat [j.name, " - (Job Failed)"]
      let s := { s with combined_failures := bumpAL s.combined_failures combined_key }
      { s with test_failures := updTF s.test_failures "(Job Failed)" (fun t =>
          { t with count := t.count + 1, jobs := bumpAL t.jobs j.name,
                   builds := addSetNat t.builds buildNum }) }

def processBuild (s : Stats) (b : BuildEntry) : Stats :=
  let r := b.results
  let s :=
    if r.status = "SUCCESS" then
      { s with successful := s.successful + 1,
               builds_by_status := appendAL s.builds_by_status "SUCCESS" b.number }
    else
      { s with failed := s.failed + 1,
               builds_by_status := appendAL s.builds_by_status "FAILED" b.number }
  let st := r.new_failures.foldl (recordTestFailure b.number true) (s, [])
  let st := r.existing_failures.foldl (recordTestFailure b.number false) st
  r.failed_jobs.foldl (recordFailedJob b.number st.2) st.1

def analyze_builds (builds : List BuildEntry) : Stats :=
  builds.foldl processBuild
    { total := builds.length, successful := 0, failed := 0, combined_failures := [],
      test_failures := [], hung_jobs := [], error_types := [], builds_by_status := [] }

/-! ## Failure signatures (`print_detailed_failures`, `analyze_ci.py` lines 382-422) -/

/-- Python tuple comparison on `(tag, text)` pairs: lexicographic, strings
compared by code point. -/
def sigLe (a b : String × String) : Bool :=
  if a.1.data = b.1.data then decide (a.2.data ≤ b.2.data)
  else decide (a.1.data < b.1.data)

/-- The relation `sigLe` as a `Prop` for sorting. -/
def sigRel (a b : String × String) : Prop := sigLe a b = true

instance : DecidableRel sigRel := fun _ _ => inferInstanceAs (Decidable (_ = true))

/-- The signature of one build's failures (lines 393-420): `combined`
entries for every new/existing failure, `hung` entries for `Unknown` jobs,
`job_only` entries for the remaining jobs whose exact name is not among
the combined entries' jobs, sorted as Python `sorted` does.  (`sigRel` is a
total antisymmetric order on the pairs, so every correct sort — Python's
Timsort, insertion sort — produces the same list.) -/
def failure_signature (r : Results) : List (String × String) :=
  let sigNew := r.new_failures.map (fun f => ("combined", strCat [f.job, " - ", f.case]))
  let sigEx := r.existing_failures.map (fun f => ("combined", strCat [f.job, " - ", f.case]))
  let jobsWithTests := (r.new_failures.map FailureR.job) ++ (r.existing_failures.map FailureR.job)
  let sigJobs := r.failed_jobs.filterMap (fun j =>
    if j.status = "Unknown" then some (("hung", j.name) : String × String)
    else if !jobsWithTests.contains j.name then some ("job_only", j.name)
    else none)
  List.insertionSort sigRel (sigNew ++ sigEx ++ sigJobs)

/-! ## Concrete documents and records used by the theorems below -/

/-- A no-response log-fetch oracle. -/
def noLogFetch : String → Option String := fun _ => none

/-- A page whose heading declares success but which carries a `Failed` job
item. -/
def docSuccessJob : Doc :=
  { h1List := [⟨"Build #7 successful", some "Build #7 successful"⟩]
    textNodes := ["Build #7 successful"]
    jobItems := [⟨"Failed", "Topology Job", "K1"⟩] }

/-- A page whose heading declares failure but which carries no failure or
job evidence at all, only a total-test counter. -/
def docFailedHeading : Doc :=
  { h1List := [⟨"Build #8 failed", some "Build #8 failed"⟩]
    textNodes := ["Build #8 failed", "Total tests 21832"] }

/-- A page with no status markers and a single `Failed` sanitizer job, so
that the parser falls through to the job-log fetch. -/
def docAsanJob : Doc := { jobItems := [⟨"Failed", "ASAN Tests", "J1"⟩] }

/-- Log-fetch oracle that never answers. -/
def oracleNone : String → Option String := fun _ => none

/-- Log-fetch oracle that returns a sanitizer summary for job `J1`. -/
def oracleSummary : String → Option String :=
  fun k =>
    if k = "J1" then some "SUMMARY: AddressSanitizer: heap-buffer-overflow on address 0x1\n"
    else none

/-- The build of the aggregator-dedup scenario: one test failure on
"LDP Testing on Debian 12" and one separate `Failed` job
"IPv4 LDP Protocol on Debian 12". -/
def resLdp : Results :=
  { url := "u", build_number := some "#100", status := "FAILED", completed_time := none,
    new_failures := [{ test := "lib [test_case]", suite := some "lib",
                       case := "lib.test_case", job := "LDP Testing on Debian 12", error := "" }],
    existing_failures := [], fixed_tests := [],
    failed_jobs := [{ name := "IPv4 LDP Protocol on Debian 12", status := "Failed",
                      reason := "Job failed", key := "", asan_details := none }],
    quarantined_skipped := 0, total_tests := 100 }

/-- A build whose parsed failure tables repeat the same row, plus one
suppressed and one surviving `Failed` job and one hung job. -/
def resDup : Results :=
  { url := "u", build_number := none, status := "FAILED", completed_time := none,
    new_failures := [{ test := "t", suite := none, case := "c", job := "J1", error := "" },
                     { test := "t", suite := none, case := "c", job := "J1", error := "" }],
    existing_failures := [], fixed_tests := [],
    failed_jobs := [{ name := "J1", status := "Failed", reason := "Job failed", key := "",
                      asan_details := none },
                    { name := "J2", status := "Failed", reason := "Job failed", key := "",
                      asan_details := none },
                    { name := "J3", status := "Unknown", reason := "Unknown status", key := "",
                      asan_details := none }],
    quarantined_skipped := 0, total_tests := 0 }

/-- A log that triggers the leak pass and then a non-leak sanitizer
summary. -/
def logLeakThenSummary : Chars :=
  ("Direct leak of 100 bytes in 1 object\n" ++
   "SUMMARY: AddressSanitizer: heap-buffer-overflow on x").data

/-- A log with only a leak report. -/
def logLeakOnly : Chars := "Direct leak of 100 bytes in 2 objects allocated from x".data

/-- A reference-build page for the walker, completed 17 Oct 2025. -/
def docOct17 : Doc := { completedRaw := some "17 Oct 2025, 1:43:42 PM – 18 hours ago" }

/-- An older page, completed 1 Oct 2025. -/
def docOct01 : Doc := { completedRaw := some "1 Oct 2025, 1:00:00 PM" }

/-- Build-page fetch oracle: build 3 is the reference, build 2 errors,
build 1 is old. -/
def fetchWalk : Nat → Option Doc :=
  fun n => if n = 3 then some docOct17 else if n = 1 then some docOct01 else none

/-- A single-build input for the aggregator whose one test failure is on a
job made of filler words only. -/
def buildFiller : BuildEntry :=
  ⟨42, "u",
   { url := "u", build_number := none, status := "FAILED", completed_time := none,
     new_failures := [{ test := "t", suite := none, case := "case1", job := "IPv4 Testing",
                        error := "" }],
     existing_failures := [], fixed_tests := [],
     failed_jobs := [{ name := "IPv4 Testing", status := "Failed", reason := "Job failed",
                       key := "", asan_details := none }],
     quarantined_skipped := 0, total_tests := 0 }⟩

/-! ## Helper lemmas -/

lemma statusOfText_cases (l : Chars) :
    statusOfText l = "FAILED" ∨ statusOfText l = "SUCCESS" ∨ statusOfText l = "Unknown" := by
  unfold statusOfText
  split_ifs <;> simp

lemma status_m1_cases (doc : Doc) :
    status_m1 doc = "FAILED" ∨ status_m1 doc = "SUCCESS" ∨ status_m1 doc = "Unknown" := by
  unfold status_m1
  rcases doc.h1List.head? with _ | h
  · simp
  · exact statusOfText_cases _

lemma status_m2_cases (doc : Doc) :
    status_m2 doc = "FAILED" ∨ status_m2 doc = "SUCCESS" ∨ status_m2 doc = "Unknown" := by
  unfold status_m2
  rcases hfind : doc.h1List.find? _ with _ | h
  · simp only [hfind]
    rcases doc.textNodes.find? _ with _ | t
    · simp
    · exact statusOfText_cases _
  · simp only [hfind]
    exact statusOfText_cases _

lemma status_m3_cases (doc : Doc) :
    status_m3 doc = "FAILED" ∨ status_m3 doc = "SUCCESS" ∨ status_m3 doc = "Unknown" := by
  simp only [status_m3]
  split_ifs <;> simp

lemma status_m4_cases (doc : Doc) :
    status_m4 doc = "FAILED" ∨ status_m4 doc = "SUCCESS" ∨ status_m4 doc = "Unknown" := by
  unfold status_m4
  split_ifs <;> simp

lemma status_heuristics_cases (doc : Doc) :
    status_heuristics doc = "FAILED" ∨ status_heuristics doc = "SUCCESS" ∨
      status_heuristics doc = "Unknown" := by
  unfold status_heuristics
  split_ifs
  · exact status_m1_cases doc
  · exact status_m2_cases doc
  · exact status_m3_cases doc
  · exact status_m4_cases doc

lemma parse_status (doc : Doc) (url : String) (o : String → Option String) :
    (parse_build_status doc url o).status =
      final_status (status_heuristics doc) (new_failures_of doc) (existing_failures_of doc)
        (failed_jobs_of doc o) (total_tests_of doc) := rfl

lemma parse_new_failures (doc : Doc) (url : String) (o : String → Option String) :
    (parse_build_status doc url o).new_failures = new_failures_of doc := rfl

lemma parse_existing_failures (doc : Doc) (url : String) (o : String → Option String) :
    (parse_build_status doc url o).existing_failures = existing_failures_of doc := rfl

lemma parse_failed_jobs (doc : Doc) (url : String) (o : String → Option String) :
    (parse_build_status doc url o).failed_jobs = failed_jobs_of doc o := rfl

lemma parse_total_tests (doc : Doc) (url : String) (o : String → Option String) :
    (parse_build_status doc url o).total_tests = total_tests_of doc := rfl

lemma final_status_cases (s : String) (nf ef : List FailureR) (fj : List JobFailureR)
    (total : Nat) :
    final_status s nf ef fj total = "FAILED" ∨ final_status s nf ef fj total = "SUCCESS" ∨
      final_status s nf ef fj total = s := by
  simp only [final_status]
  split_ifs <;> simp

lemma final_status_of_evidence (s : String) (nf ef : List FailureR) (fj : List JobFailureR)
    (total : Nat) (hs : s = "FAILED" ∨ s = "SUCCESS" ∨ s = "Unknown")
    (hev : nf ≠ [] ∨ ef ≠ [] ∨ fj ≠ []) :
    final_status s nf ef fj total = "FAILED" ∨
      (final_status s nf ef fj total = "SUCCESS" ∧ s = "SUCCESS") := by
  simp only [final_status]
  rcases hs with hs | hs | hs <;> subst hs <;> split_ifs <;> simp_all

/-! ## Claim theorems -/

/-- C1 (counterexample): the claimed invariant "non-empty `new_failures`,
`existing_failures` or `failed_jobs` forces status FAILED" fails on a page
whose `<h1>` says "successful" but which carries a `Failed` job item: the
heading heuristic fires first and the post-hoc pass (line 703) only runs
when the status is still Unknown. -/
theorem C1_counterexample :
    (parse_build_status docSuccessJob "u" noLogFetch).failed_jobs ≠ [] ∧
      (parse_build_status docSuccessJob "u" noLogFetch).status = "SUCCESS" ∧
      (parse_build_status docSuccessJob "u" noLogFetch).status ≠ "FAILED" := by
  decide

/-- C1 (amended): for every parsed document, if `new_failures`,
`existing_failures` or `failed_jobs` is non-empty then the final status is
FAILED, unless a heading/summary heuristic already classified the build as
SUCCESS (in which case it stays SUCCESS); in particular it never remains
Unknown. -/
theorem C1_evidence_forces_failed (doc : Doc) (url : String) (o : String → Option String)
    (hev : (parse_build_status doc url o).new_failures ≠ [] ∨
           (parse_build_status doc url o).existing_failures ≠ [] ∨
           (parse_build_status doc url o).failed_jobs ≠ []) :
    (parse_build_status doc url o).status = "FAILED" ∨
      ((parse_build_status doc url o).status = "SUCCESS" ∧
        status_heuristics doc = "SUCCESS") := by
  rw [parse_new_failures, parse_existing_failures, parse_failed_jobs] at hev
  rw [parse_status]
  exact final_status_of_evidence _ _ _ _ _ (status_heuristics_cases doc) hev

/-- C1 (witness): a page with no status markers and one `Failed` job item
resolves to FAILED via the amended invariant. -/
theorem C1_evidence_forces_failed_witness :
    (parse_build_status docAsanJob "u" noLogFetch).status = "FAILED" ∨
      ((parse_build_status docAsanJob "u" noLogFetch).status = "SUCCESS" ∧
        status_heuristics docAsanJob = "SUCCESS") :=
  C1_evidence_forces_failed docAsanJob "u" noLogFetch (by decide)

/-- The job-status-class access of `check_ci_build.py` line 631,
`job_item.get("class", [""])[0]`, modelled fallibly.  BeautifulSoup treats
`class` as a multi-valued attribute and splits its value on whitespace, so
a `li` written `class=""` (or `class="  "`) carries the attribute as the
EMPTY list — the `[""]` default applies only when the attribute is absent
altogether.  The argument is `none` when the attribute is absent and
`some classes` (the split list) when present; the result is `none` exactly
when the Python subscript raises `IndexError`. -/
def jobItemStatusClass (classAttr : Option (List String)) : Option String :=
  (classAttr.getD [""]).head?

/-- C2: the claim — `parse_build_status` always returns a record and never
raises, degrading malformed markup to safe defaults — states the code's
own clearly intended contract (the `[""]` default at line 631 exists
precisely to keep the subscript total on job items without a class), but
the code slips: for a job `li` whose `class` attribute is present and
empty, BeautifulSoup yields the empty class list, the default does not
apply, and `job_item.get("class", [""])[0]` raises `IndexError` instead
of degrading.  Evaluated here: the absent attribute is guarded
(`some ""`), the present-but-empty one is not (`none` = raise).  The
total `Doc` model used by the other claims (`JobItem.statusClass`)
assumes the non-raising case. -/
theorem C2_class_subscript_raises :
    jobItemStatusClass none = some "" ∧ jobItemStatusClass (some []) = none := by
  decide

/-- C5 (counterexample): a document with zero failure/job evidence and a
positive total-test count whose status is nevertheless FAILED, because its
heading says "failed": the claimed unconditional SUCCESS rule does not
hold — the post-hoc SUCCESS pass (line 711) requires status to still be
Unknown. -/
theorem C5_counterexample :
    (parse_build_status docFailedHeading "u" noLogFetch).new_failures = [] ∧
      (parse_build_status docFailedHeading "u" noLogFetch).existing_failures = [] ∧
      (parse_build_status docFailedHeading "u" noLogFetch).failed_jobs = [] ∧
      0 < (parse_build_status docFailedHeading "u" noLogFetch).total_tests ∧
      (parse_build_status docFailedHeading "u" noLogFetch).status ≠ "SUCCESS" := by
  decide

/-- C5 (amended): if the per-section heuristics left the status Unknown,
zero failure/job evidence plus a positive total-test count forces SUCCESS. -/
theorem C5_no_evidence_success (doc : Doc) (url : String) (o : String → Option String)
    (hH : status_heuristics doc = "Unknown")
    (hnf : (parse_build_status doc url o).new_failures = [])
    (hef : (parse_build_status doc url o).existing_failures = [])
    (hfj : (parse_build_status doc url o).failed_jobs = [])
    (ht : 0 < (parse_build_status doc url o).total_tests) :
    (parse_build_status doc url o).status = "SUCCESS" := by
  rw [parse_new_failures] at hnf
  rw [parse_existing_failures] at hef
  rw [parse_failed_jobs] at hfj
  rw [parse_total_tests] at ht
  rw [parse_status, hH]
  simp only [final_status, hnf, hef, hfj]
  split_ifs with h1 h2 <;> simp_all

/-- C5 (witness): a page carrying only a total-test counter parses to
SUCCESS. -/
theorem C5_no_evidence_success_witness :
    (parse_build_status { textNodes := ["Total tests 500"] } "u" noLogFetch).status
      = "SUCCESS" :=
  C5_no_evidence_success { textNodes := ["Total tests 500"] } "u" noLogFetch
    (by decide) (by decide) (by decide) (by decide) (by decide)

/-- C9 (counterexample): parsing is not a pure function of document text
and URL: with a `Failed` sanitizer job and no inline diagnostics, the
parser fetches the job log mid-parse, so two runs of `parse_build_status`
on the same document and URL differ when the log-fetch collaborator
answers differently. -/
theorem C9_counterexample :
    parse_build_status docAsanJob "u" oracleNone ≠
      parse_build_status docAsanJob "u" oracleSummary := by
  decide

/-- C9 (amended): parsing is a pure function of the document, the URL and
the job-log fetch responses: with the log-fetch collaborator's answers
fixed, two invocations yield identical records. -/
theorem C9_parse_deterministic (doc : Doc) (url : String)
    (o1 o2 : String → Option String) (h : ∀ k, o1 k = o2 k) :
    parse_build_status doc url o1 = parse_build_status doc url o2 := by
  have : o1 = o2 := funext h
  rw [this]

/-- C9 (witness): determinism at the concrete sanitizer-job page. -/
theorem C9_parse_deterministic_witness :
    parse_build_status docAsanJob "u" oracleNone =
      parse_build_status docAsanJob "u" oracleNone :=
  C9_parse_deterministic docAsanJob "u" oracleNone oracleNone (fun _ => rfl)

/-- C3: aggregator dedup scenario.  For the single build with a test
failure on "LDP Testing on Debian 12" and a separate `Failed` job entry
"IPv4 LDP Protocol on Debian 12", the aggregate records exactly one
counted failure (under the test's job), and no "(Job Failed)" entry at
all: the fuzzy matcher identifies the two job names. -/
theorem C3_ldp_dedup :
    analyze_builds [⟨100, "u", resLdp⟩] =
      { total := 1, successful := 0, failed := 1
        combined_failures := [("LDP Testing on Debian 12 - lib.test_case", 1)]
        test_failures := [("lib.test_case", ⟨1, [("LDP Testing on Debian 12", 1)], [100]⟩)]
        hung_jobs := [], error_types := [], builds_by_status := [("FAILED", [100])] } := by
  decide

/-- C8: when the reference build cannot be fetched, or its completion date
cannot be established from the fetched page, the walker returns zero
results, and its fetch trace shows that only the reference id was
requested — no further build ids are fetched. -/
theorem C8_walker_init_failure (fetchDoc : Nat → Option Doc)
    (oracle : String → Option String) (ref days : Nat)
    (h : fetchDoc ref = none ∨
      ∃ doc, fetchDoc ref = some doc ∧
        completionOrdinal (parse_build_status doc (buildUrl ref) oracle).completed_time
          = none) :
    get_builds_from_week fetchDoc oracle ref days = ([], [ref]) := by
  rcases h with h | ⟨doc, hdoc, hord⟩
  · unfold get_builds_from_week
    rw [h]
  · unfold get_builds_from_week
    rw [hdoc]
    simp only [hord]

/-- C8 (witness): an unreachable reference build yields `([], [9])`. -/
theorem C8_walker_init_failure_witness :
    get_builds_from_week (fun _ => none) oracleNone 9 7 = ([], [9]) :=
  C8_walker_init_failure (fun _ => none) oracleNone 9 7 (Or.inl rfl)

/-- Did the sanitizer-summary pass match a summary that does not mention a
leak?  (Exactly the branch of lines 162-171 that assigns `error_type`
unconditionally.) -/
def summaryNonLeak (log : Chars) : Bool :=
  match summaryCapture log with
  | some cap => !subList "leak".data (lowerS (trimC cap))
  | none => false

/-- C6 (counterexample): the second pass (sanitizer summary line) can
overwrite a field the first pass (leak pattern) already set: on a log with
a `Direct leak` report followed by a `heap-buffer-overflow` summary,
`error_type` is first `memory-leak`, then overwritten. -/
theorem C6_counterexample :
    (asanPass1 logLeakThenSummary {}).error_type = some "memory-leak" ∧
      (asanPass2 logLeakThenSummary (asanPass1 logLeakThenSummary {})).error_type
        = some "heap-buffer-overflow" := by
  decide

/-- C6 (amended): the three passes run in priority order and only fill
empty fields, with one exception: the summary pass overwrites
`error_type` whenever the matched summary does not mention a leak.  In
detail, for every log text and intermediate state: the summary pass never
touches `leak_type`, never overwrites a set `leak_size`, and preserves a
set `error_type` whenever no non-leak summary matched; the error-line pass
never touches `leak_type`/`leak_size` and never overwrites a set
`error_type`. -/
theorem C6_passes_fill_only (log : Chars) (d : AsanDetails) :
    (asanPass2 log d).leak_type = d.leak_type ∧
    (d.leak_size ≠ none → (asanPass2 log d).leak_size = d.leak_size) ∧
    (asanPass3 log d).leak_type = d.leak_type ∧
    (asanPass3 log d).leak_size = d.leak_size ∧
    (d.error_type ≠ none → (asanPass3 log d).error_type = d.error_type) ∧
    (summaryNonLeak log = false → d.error_type ≠ none →
      (asanPass2 log d).error_type = d.error_type) := by
  refine ⟨?_, ?_, ?_, ?_, ?_, ?_⟩
  · cases hs : summaryCapture log with
    | none => simp [asanPass2, hs]
    | some cap =>
      simp only [asanPass2, hs]
      split_ifs <;> first
        | rfl
        | (cases hb : byteCapture (trimC cap) <;> simp only [hb] <;>
            (try split_ifs) <;> rfl)
  · intro hls
    cases hs : summaryCapture log with
    | none => simp [asanPass2, hs]
    | some cap =>
      simp only [asanPass2, hs]
      split_ifs <;> first
        | rfl
        | (cases hb : byteCapture (trimC cap) <;> simp only [hb] <;>
            (try split_ifs) <;> simp_all)
  · cases hs : errorCapture log <;> simp only [asanPass3, hs] <;>
      (try split_ifs) <;> rfl
  · cases hs : errorCapture log <;> simp only [asanPass3, hs] <;>
      (try split_ifs) <;> rfl
  · intro het
    cases hs : errorCapture log <;> simp only [asanPass3, hs] <;>
      (try split_ifs) <;> simp_all
  · intro hnl het
    cases hs : summaryCapture log with
    | none => simp [asanPass2, hs]
    | some cap =>
      simp only [summaryNonLeak, hs, Bool.not_eq_false] at hnl
      simp only [asanPass2, hs]
      split_ifs <;>
        first
          | (cases hb : byteCapture (trimC cap) <;> simp only [hb] <;>
              (try split_ifs) <;> simp_all)
          | simp_all

/-- C6 (witness): on a leak-only log, the later passes leave every
already-set field unchanged. -/
theorem C6_passes_fill_only_witness :
    (asanPass2 logLeakOnly (asanPass1 logLeakOnly {})).leak_size
        = (asanPass1 logLeakOnly {}).leak_size ∧
      (asanPass2 logLeakOnly (asanPass1 logLeakOnly {})).error_type
        = (asanPass1 logLeakOnly {}).error_type :=
  ⟨(C6_passes_fill_only logLeakOnly (asanPass1 logLeakOnly {})).2.1 (by decide),
   (C6_passes_fill_only logLeakOnly (asanPass1 logLeakOnly {})).2.2.2.2.2 (by decide)
     (by decide)⟩

/-- No build appended by the walker loop has a parsed completion date
before the cutoff: the loop stops, discarding the current build, as soon
as such a date is seen. -/
lemma buildLoop_no_old (f : Nat → Option Doc) (o : String → Option String)
    (cur : Nat) (cutoff : Int) :
    ∀ (fuel i : Nat), ∀ b ∈ (buildLoop f o cur cutoff i fuel).1, ∀ dd : Nat,
      completionOrdinal b.results.completed_time = some dd → ¬ ((dd : Int) < cutoff) := by
  intro fuel
  induction fuel with
  | zero =>
    intro i b hb
    simp [buildLoop] at hb
  | succ n ih =>
    intro i b hb dd hdd
    simp only [buildLoop] at hb
    split_ifs at hb with h1
    · simp at hb
    · cases hf : f (cur - i) with
      | none =>
        rw [hf] at hb
        dsimp only at hb
        exact ih (i + 1) b hb dd hdd
      | some doc =>
        rw [hf] at hb
        dsimp only at hb
        cases hord : completionOrdinal
            (parse_build_status doc (buildUrl (cur - i)) o).completed_time with
        | some d0 =>
          rw [hord] at hb
          dsimp only at hb
          split_ifs at hb with h2
          · simp at hb
          · simp only [List.mem_cons] at hb
            rcases hb with rfl | hb'
            · dsimp only at hdd
              rw [hord] at hdd
              cases hdd
              exact h2
            · exact ih (i + 1) b hb' dd hdd
        | none =>
          rw [hord] at hb
          dsimp only at hb
          simp only [List.mem_cons] at hb
          rcases hb with rfl | hb'
          · dsimp only at hdd
            rw [hord] at hdd
            cases hdd
          · exact ih (i + 1) b hb' dd hdd

/-- The first loop iteration appends the reference build whenever its page
fetches, its date parses, and that date is not before the cutoff. -/
lemma buildLoop_head (f : Nat → Option Doc) (o : String → Option String)
    (cur : Nat) (cutoff : Int) (n : Nat) (doc : Doc) (d0 : Nat)
    (h1 : 1 ≤ cur) (h2 : f cur = some doc)
    (hord : completionOrdinal (parse_build_status doc (buildUrl cur) o).completed_time
        = some d0)
    (hcut : ¬ ((d0 : Int) < cutoff)) :
    ∃ b ∈ (buildLoop f o cur cutoff 0 (n + 1)).1, b.number = cur := by
  simp only [buildLoop, Nat.sub_zero]
  have hlt : ¬ cur < 1 := by omega
  rw [if_neg hlt, h2]
  dsimp only
  rw [hord]
  dsimp only
  rw [if_neg hcut]
  exact ⟨_, List.mem_cons_self _ _, rfl⟩

/-- C4: for every walk whose reference build is fetched and has a parsed
completion date `refOrd`, with a lookback window of `days` days, the
returned sequence contains the reference build itself, and no returned
build has a parsed completion date earlier than `refOrd − days`. -/
theorem C4_walker_window (f : Nat → Option Doc) (o : String → Option String)
    (ref days : Nat) (doc : Doc) (refOrd : Nat)
    (h1 : 1 ≤ ref) (h2 : f ref = some doc)
    (h3 : completionOrdinal (parse_build_status doc (buildUrl ref) o).completed_time
        = some refOrd) :
    (∃ b ∈ (get_builds_from_week f o ref days).1, b.number = ref) ∧
      ∀ b ∈ (get_builds_from_week f o ref days).1, ∀ dd : Nat,
        completionOrdinal b.results.completed_time = some dd →
          ¬ ((dd : Int) < (refOrd : Int) - (days : Int)) := by
  unfold get_builds_from_week
  rw [h2]
  simp only [h3]
  constructor
  · have hcut : ¬ ((refOrd : Int) < (refOrd : Int) - (days : Int)) := by omega
    exact buildLoop_head f o ref ((refOrd : Int) - (days : Int)) 199 doc refOrd h1 h2 h3 hcut
  · intro b hb dd hdd
    exact buildLoop_no_old f o ref ((refOrd : Int) - (days : Int)) 200 0 b hb dd hdd

/-- C4 (witness): walking back from reference build 3 (completed
17 Oct 2025) with a 7-day window includes build 3 and nothing older than
10 Oct 2025. -/
theorem C4_walker_window_witness :
    (∃ b ∈ (get_builds_from_week fetchWalk oracleNone 3 7).1, b.number = 3) ∧
      ∀ b ∈ (get_builds_from_week fetchWalk oracleNone 3 7).1, ∀ dd : Nat,
        completionOrdinal b.results.completed_time = some dd →
          ¬ ((dd : Int) < ((dateOrdinal 2025 10 17 : Nat) : Int) - ((7 : Nat) : Int)) :=
  C4_walker_window fetchWalk oracleNone 3 7 docOct17 (dateOrdinal 2025 10 17)
    (by decide) (by decide) (by decide)

/-- `sigRel` is total. -/
lemma sigRel_total : ∀ a b : String × String, sigRel a b ∨ sigRel b a := by
  intro a b
  unfold sigRel sigLe
  by_cases h : a.1.data = b.1.data
  · rw [if_pos h, if_pos h.symm]
    simp only [decide_eq_true_eq]
    exact le_total _ _
  · rw [if_neg h, if_neg (fun he => h he.symm)]
    simp only [decide_eq_true_eq]
    exact lt_or_gt_of_ne h

/-- `sigRel` is transitive. -/
lemma sigRel_trans : ∀ a b c : String × String, sigRel a b → sigRel b c → sigRel a c := by
  intro a b c hab hbc
  unfold sigRel sigLe at *
  by_cases h1 : a.1.data = b.1.data <;> by_cases h2 : b.1.data = c.1.data
  · rw [if_pos h1, decide_eq_true_eq] at hab
    rw [if_pos h2, decide_eq_true_eq] at hbc
    rw [if_pos (h1.trans h2), decide_eq_true_eq]
    exact le_trans hab hbc
  · rw [if_neg h2, decide_eq_true_eq] at hbc
    have h3 : a.1.data ≠ c.1.data := fun he => h2 (h1.symm.trans he)
    rw [if_neg h3, decide_eq_true_eq, h1]
    exact hbc
  · rw [if_neg h1, decide_eq_true_eq] at hab
    have h3 : a.1.data ≠ c.1.data := fun he => h1 (he.trans h2.symm)
    rw [if_neg h3, decide_eq_true_eq, ← h2]
    exact hab
  · rw [if_neg h1, decide_eq_true_eq] at hab
    rw [if_neg h2, decide_eq_true_eq] at hbc
    have hlt : a.1.data < c.1.data := lt_trans hab hbc
    rw [if_neg (ne_of_lt hlt), decide_eq_true_eq]
    exact hlt

/-- C7 (counterexample): the failure signature is not deduplicated — on a
build whose `new_failures` list the same failure twice, the tuple occurs
twice in the signature. -/
theorem C7_counterexample :
    (failure_signature resDup).count ("combined", "J1 - c") = 2 := by
  decide

/-- C7 (amended): for every build's result record, the failure signature
is a sorted list of tagged tuples (duplicates preserved, not a
deduplicated set), in which a `job_only` entry for a job appears only if
that job is not the job of any new/existing failure of the build. -/
theorem C7_signature_sorted (r : Results) :
    (failure_signature r).Sorted sigRel ∧
      ∀ j : String, ("job_only", j) ∈ failure_signature r →
        ∀ f ∈ r.new_failures ++ r.existing_failures, f.job ≠ j := by
  constructor
  · haveI : IsTotal (String × String) sigRel := ⟨sigRel_total⟩
    haveI : IsTrans (String × String) sigRel := ⟨sigRel_trans⟩
    exact List.sorted_insertionSort sigRel _
  · intro j hj f hf hfj
    unfold failure_signature at hj
    rw [List.mem_insertionSort] at hj
    simp only [List.mem_append, List.mem_map, List.mem_filterMap] at hj
    rcases hj with (⟨f', _, heq⟩ | ⟨f', _, heq⟩) | ⟨jf, hjf, heq⟩
    · have hcj : ("combined" : String) = "job_only" := congrArg Prod.fst heq
      exact absurd hcj (by decide)
    · have hcj : ("combined" : String) = "job_only" := congrArg Prod.fst heq
      exact absurd hcj (by decide)
    · split_ifs at heq with hu hc
      · simp only [Option.some.injEq, Prod.mk.injEq] at heq
        exact absurd heq.1 (by decide)
      · simp only [Option.some.injEq, Prod.mk.injEq] at heq
        have hname : jf.name = j := heq.2
        rw [Bool.not_eq_true'] at hc
        have hjmem : j ∈ (r.new_failures.map FailureR.job) ++
            (r.existing_failures.map FailureR.job) := by
          rw [List.mem_append]
          rcases List.mem_append.mp hf with hf' | hf'
          · exact Or.inl (List.mem_map.mpr ⟨f, hf', hfj⟩)
          · exact Or.inr (List.mem_map.mpr ⟨f, hf', hfj⟩)
        have hcontains : ((r.new_failures.map FailureR.job) ++
            (r.existing_failures.map FailureR.job)).contains j = true :=
          List.elem_iff.mpr hjmem
        rw [hname, hcontains] at hc
        cases hc

/-- Job names made only of the filler substrings that
`normalize_job_name` removes. -/
def fillerOnly (name : String) : Bool :=
  (splitWs (lowerS name.data)).all (fun w => fillerWords.contains w)

lemma subList_nil (s : Chars) : subList [] s = true := by
  cases s <;> simp [subList, List.isPrefixOf]

lemma jobs_match_nil (s : Chars) : jobs_match [] s = true := by
  unfold jobs_match
  rw [if_pos]
  rw [subList_nil]
  simp

lemma getTF_cons (a : String) (v : TestStat) (rest : List (String × TestStat)) (k : String) :
    getTF ((a, v) :: rest) k = if a = k then v else getTF rest k := by
  by_cases h : a = k <;> simp [getTF, List.find?, h]

lemma getTF_updTF_ne (k k' : String) (f : TestStat → TestStat) (h : k' ≠ k) :
    ∀ m : List (String × TestStat), getTF (updTF m k f) k' = getTF m k'
  | [] => by
    show getTF [(k, f {})] k' = getTF [] k'
    rw [getTF_cons, if_neg (fun he => h he.symm)]
  | (a, v) :: rest => by
    by_cases ha : a = k
    · simp only [updTF, if_pos ha, getTF_cons]
      rw [if_neg (fun he => h (he.symm.trans ha)), if_neg (fun he => h (he.symm.trans ha))]
    · simp only [updTF, if_neg ha, getTF_cons]
      by_cases ha' : a = k'
      · rw [if_pos ha', if_pos ha']
      · rw [if_neg ha', if_neg ha', getTF_updTF_ne k k' f h rest]

lemma getTF_updTF_eq (k : String) (f : TestStat → TestStat) :
    ∀ m : List (String × TestStat), getTF (updTF m k f) k = f (getTF m k)
  | [] => by
    show getTF [(k, f {})] k = f (getTF [] k)
    rw [getTF_cons, if_pos rfl]
    rfl
  | (a, v) :: rest => by
    by_cases ha : a = k
    · simp [updTF, ha, getTF_cons]
    · simp [updTF, ha, getTF_cons, getTF_updTF_eq k f rest]

lemma getAL_cons (a : String) (v : Nat) (rest : List (String × Nat)) (k : String) :
    getAL ((a, v) :: rest) k = if a = k then v else getAL rest k := by
  by_cases h : a = k <;> simp [getAL, List.find?, h]

lemma getAL_bumpAL_ne (k k' : String) (h : k' ≠ k) :
    ∀ m : List (String × Nat), getAL (bumpAL m k) k' = getAL m k'
  | [] => by
    show getAL [(k, 1)] k' = getAL [] k'
    rw [getAL_cons, if_neg (fun he => h he.symm)]
  | (a, v) :: rest => by
    by_cases ha : a = k
    · simp only [bumpAL, if_pos ha, getAL_cons]
      rw [if_neg (fun he => h (he.symm.trans ha)), if_neg (fun he => h (he.symm.trans ha))]
    · simp only [bumpAL, if_neg ha, getAL_cons]
      by_cases ha' : a = k'
      · rw [if_pos ha', if_pos ha']
      · rw [if_neg ha', if_neg ha', getAL_bumpAL_ne k k' h rest]

lemma addSetChars_ne (l : List Chars) (x : Chars) : addSetChars l x ≠ [] := by
  unfold addSetChars
  split_ifs with h
  · cases l with
    | nil => simp at h
    | cons a t => simp
  · simp

lemma recordTestFailure_tracked (n : Nat) (isNew : Bool) (st : Stats × List Chars)
    (f : FailureR) :
    (recordTestFailure n isNew st f).2 = addSetChars st.2 (normalize_job_name f.job) := by
  unfold recordTestFailure
  split_ifs <;> rfl

lemma recordTestFailure_tf (n : Nat) (isNew : Bool) (st : Stats × List Chars) (f : FailureR) :
    (recordTestFailure n isNew st f).1.test_failures =
      updTF st.1.test_failures f.case (fun t =>
        { t with count := t.count + 1, jobs := bumpAL t.jobs f.job,
                 builds := addSetNat t.builds n }) := by
  unfold recordTestFailure
  split_ifs <;> rfl

lemma foldl_tracked_mono (n : Nat) (isNew : Bool) :
    ∀ (fs : List FailureR) (st : Stats × List Chars), st.2 ≠ [] →
      (fs.foldl (recordTestFailure n isNew) st).2 ≠ []
  | [], st, h => h
  | f :: rest, st, _ => by
    rw [List.foldl_cons]
    exact foldl_tracked_mono n isNew rest _
      (by rw [recordTestFailure_tracked]; exact addSetChars_ne _ _)

lemma foldl_tracked_nonempty (n : Nat) (isNew : Bool) :
    ∀ (fs : List FailureR) (st : Stats × List Chars), fs ≠ [] →
      (fs.foldl (recordTestFailure n isNew) st).2 ≠ []
  | [], _, h => absurd rfl h
  | f :: rest, st, _ => by
    rw [List.foldl_cons]
    exact foldl_tracked_mono n isNew rest _
      (by rw [recordTestFailure_tracked]; exact addSetChars_ne _ _)

lemma foldl_failures_preserve (n : Nat) (isNew : Bool) (name : String) :
    ∀ (fs : List FailureR) (st : Stats × List Chars),
      (∀ f ∈ fs, f.case ≠ "(Job Failed)") →
      getAL (getTF ((fs.foldl (recordTestFailure n isNew) st).1.test_failures)
          "(Job Failed)").jobs name
        = getAL (getTF st.1.test_failures "(Job Failed)").jobs name
  | [], st, _ => rfl
  | f :: rest, st, h => by
    rw [List.foldl_cons,
      foldl_failures_preserve n isNew name rest _ (fun g hg => h g (List.mem_cons_of_mem f hg)),
      recordTestFailure_tf,
      getTF_updTF_ne _ _ _ (fun he => h f (List.mem_cons_self f rest) he.symm)]

lemma foldl_jobs_preserve (n : Nat) (tracked : List Chars) (name : String)
    (htr : tracked ≠ []) (hnm : normalize_job_name name = []) :
    ∀ (js : List JobFailureR) (s : Stats),
      getAL (getTF ((js.foldl (recordFailedJob n tracked) s).test_failures)
          "(Job Failed)").jobs name
        = getAL (getTF s.test_failures "(Job Failed)").jobs name
  | [], s => rfl
  | j :: rest, s => by
    rw [List.foldl_cons, foldl_jobs_preserve n tracked name htr hnm rest _]
    show getAL (getTF ((recordFailedJob n tracked s j).test_failures) "(Job Failed)").jobs name
      = getAL (getTF s.test_failures "(Job Failed)").jobs name
    simp only [recordFailedJob]
    split_ifs with hu halready
    · rw [getTF_updTF_ne _ _ _ (by decide)]
    · rfl
    · have hne : j.name ≠ name := by
        intro he
        apply halready
        rw [he, hnm]
        cases tracked with
        | nil => exact absurd rfl htr
        | cons t ts => simp [jobs_match_nil]
      dsimp only
      rw [getTF_updTF_eq]
      show getAL (bumpAL (getTF s.test_failures "(Job Failed)").jobs j.name) name = _
      rw [getAL_bumpAL_ne _ _ (fun he => hne he.symm)]

lemma processBuild_suppress (b : BuildEntry) (s : Stats) (name : String)
    (hev : b.results.new_failures ≠ [] ∨ b.results.existing_failures ≠ [])
    (hnorm : normalize_job_name name = [])
    (hnc : ∀ f ∈ b.results.new_failures ++ b.results.existing_failures,
      f.case ≠ "(Job Failed)") :
    getAL (getTF (processBuild s b).test_failures "(Job Failed)").jobs name
      = getAL (getTF s.test_failures "(Job Failed)").jobs name := by
  have hnc1 : ∀ f ∈ b.results.new_failures, f.case ≠ "(Job Failed)" :=
    fun f hf => hnc f (List.mem_append_left _ hf)
  have hnc2 : ∀ f ∈ b.results.existing_failures, f.case ≠ "(Job Failed)" :=
    fun f hf => hnc f (List.mem_append_right _ hf)
  simp only [processBuild]
  split_ifs with hstat <;>
  · rw [foldl_jobs_preserve _ _ _ ?htr hnorm,
      foldl_failures_preserve _ _ _ _ _ hnc2, foldl_failures_preserve _ _ _ _ _ hnc1]
    case htr =>
      rcases hev with hev | hev
      · exact foldl_tracked_mono _ _ _ _ (foldl_tracked_nonempty _ _ _ _ hev)
      · exact foldl_tracked_nonempty _ _ _ _ hev

/-- C10 (counterexample): not every job name consisting only of filler
tokens normalizes to the empty string: "IPv4 Tests" is made of the filler
tokens `ipv4` and `tests`, yet normalizes to "s", because the substring
"test" is removed before "tests". -/
theorem C10_counterexample :
    fillerOnly "IPv4 Tests" = true ∧ normalize_job_name "IPv4 Tests" ≠ [] ∧
      normalize_job_name "IPv4 Tests" = "s".data := by
  decide

/-- C10 (amended): `normalize_job_name "IPv4 Testing"` is the empty
string; `jobs_match` with an empty first argument accepts every name (the
substring test); consequently, in any single-build aggregation with at
least one test-level failure, a non-`Unknown` job whose name normalizes to
empty never produces a "(Job Failed)" entry under its name (assuming, as
the synthetic-key design does, that no real test case is literally named
"(Job Failed)"). -/
theorem C10_empty_norm_suppression :
    normalize_job_name "IPv4 Testing" = [] ∧
    (∀ s : Chars, jobs_match [] s = true) ∧
    (∀ (b : BuildEntry) (j : JobFailureR),
      (b.results.new_failures ≠ [] ∨ b.results.existing_failures ≠ []) →
      j ∈ b.results.failed_jobs → j.status ≠ "Unknown" →
      normalize_job_name j.name = [] →
      (∀ f ∈ b.results.new_failures ++ b.results.existing_failures,
        f.case ≠ "(Job Failed)") →
      getAL (getTF (analyze_builds [b]).test_failures "(Job Failed)").jobs j.name = 0) := by
  refine ⟨by decide, jobs_match_nil, ?_⟩
  intro b j hev hjm hst hnorm hnc
  have h1 : analyze_builds [b] =
      processBuild
        { total := 1, successful := 0, failed := 0, combined_failures := [],
          test_failures := [], hung_jobs := [], error_types := [],
          builds_by_status := [] } b := rfl
  rw [h1, processBuild_suppress b _ j.name hev hnorm hnc]
  rfl

/-- C10 (witness): a build with one test failure on "IPv4 Testing" and a
`Failed` job of the same filler-only name records nothing under
"(Job Failed)". -/
theorem C10_empty_norm_suppression_witness :
    getAL (getTF (analyze_builds [buildFiller]).test_failures "(Job Failed)").jobs
      "IPv4 Testing" = 0 :=
  C10_empty_norm_suppression.2.2 buildFiller
    { name := "IPv4 Testing", status := "Failed", reason := "Job failed", key := "",
      asan_details := none }
    (Or.inl (by decide)) (by decide) (by decide) (by decide) (by decide)

/-- C7 (witness): the signature of the duplicate-failure build is sorted,
and its `job_only` job "J2" is the job of no new/existing failure. -/
theorem C7_signature_sorted_witness :
    (failure_signature resDup).Sorted sigRel ∧
      ∀ f ∈ resDup.new_failures ++ resDup.existing_failures, f.job ≠ "J2" :=
  ⟨(C7_signature_sorted resDup).1, (C7_signature_sorted resDup).2 "J2" (by decide)⟩
